import Mathlib

/-!
Resource handlers and route registration of the FHIR server (package `server`).

A shallow embedding of the handler files `goal.go`, `processrequest.go`,
`encounter.go`, `location.go` and `supply.go` and of `routing.go`, together with the library
calls they make (`bson.ObjectId`, `encoding/hex`, `net/http` response
writing, `gorilla/context`, an `mgo` collection).

Go strings are embedded as Lean strings; `len(s)` is the UTF-8 byte size.
-/

set_option autoImplicit false

namespace Fhir

/-! ## `encoding/hex` and `bson.ObjectId` -/

/-- One byte. -/
abbrev Byte := Fin 256

/-- Go `type ObjectId string`: the raw bytes of the identifier.
The zero value is the empty string. -/
abbrev ObjectId := List Byte

/-- Digit `hextable[d]` of `encoding/hex`, `hextable = "0123456789abcdef"`. -/
def hexDigit (d : Nat) : Char :=
  if d < 10 then Char.ofNat (48 + d) else Char.ofNat (87 + d)

/-- Go `hex.EncodeToString`: each byte `v` gives `hextable[v>>4]`, `hextable[v&0x0f]`. -/
def encodeChars : List Byte → List Char
  | [] => []
  | v :: rest => hexDigit (v.val / 16) :: hexDigit (v.val % 16) :: encodeChars rest

/-- Go `fromHexChar`: the value of one hexadecimal digit, in either letter case. -/
def fromHexChar (c : Char) : Option Nat :=
  let n := c.toNat
  if 48 ≤ n ∧ n ≤ 57 then some (n - 48)
  else if 97 ≤ n ∧ n ≤ 102 then some (n - 97 + 10)
  else if 65 ≤ n ∧ n ≤ 70 then some (n - 65 + 10)
  else none

/-- Go `hex.DecodeString` on the characters of the input: pairs of digits give
bytes `(a << 4) | b`; a bad digit or an odd length is an error (`none`). -/
def decodeChars : List Char → Option (List Byte)
  | [] => some []
  | [_] => none
  | a :: b :: rest =>
    match fromHexChar a, fromHexChar b, decodeChars rest with
    | some x, some y, some ds => some (Fin.ofNat (x * 16 + y) :: ds)
    | _, _, _ => none

/-- Go `len(s)` for a string: the number of bytes. -/
def len (s : String) : Nat := s.utf8ByteSize

/-- Go `bson.IsObjectIdHex`: `len(s) == 24` and `hex.DecodeString(s)` succeeds. -/
def IsObjectIdHex (s : String) : Bool :=
  if len s != 24 then false
  else (decodeChars s.data).isSome

/-- Go `bson.ObjectIdHex`: the decoded identifier; `none` stands for the panic
on an input that does not decode to twelve bytes. -/
def ObjectIdHex (s : String) : Option ObjectId :=
  match decodeChars s.data with
  | some d => if d.length = 12 then some d else none
  | none => none

/-- Go `ObjectId.Hex`: `hex.EncodeToString([]byte(id))`. -/
def ObjectId.Hex (id : ObjectId) : String := String.mk (encodeChars id)

/-- The zero value of `bson.ObjectId` (`var id bson.ObjectId`). -/
def ObjectId.zero : ObjectId := []

/-- Lower-case form of a string, character by character (`strings.ToLower` on ASCII). -/
def lowerCase (s : String) : String := String.mk (s.data.map Char.toLower)

/-- A 24-character string of lower-case hexadecimal digits. -/
def IsLowerHex24 (s : String) : Prop :=
  s.data.length = 24 ∧ ∀ c ∈ s.data, (48 ≤ c.toNat ∧ c.toNat ≤ 57) ∨ (97 ≤ c.toNat ∧ c.toNat ≤ 102)

/-! ## Records and bundles (package `models`) -/

/-- Modelled from the spec: the record types of package `models` (`models.Goal`,
`models.ProcessRequest`, `models.Encounter`, `models.Location`, `models.Supply`), whose
declarations are not among the source files. A record has its `id` (stored as `_id`), the
reference id of its `patient` reference when it has one (`patient.referenceid`), and
resource-specific fields that are not modelled further. -/
structure Record (α : Type) where
  Id : String
  Patient : Option String
  Fields : α
deriving DecidableEq

/-- Modelled from the spec: `models.GoalBundleEntry` / `models.ProcessRequestBundleEntry`,
with the fields the handlers assign. -/
structure BundleEntry (α : Type) where
  Title : String
  Id : String
  Content : Record α
deriving DecidableEq

/-- Modelled from the spec: `models.GoalBundle` / `models.ProcessRequestBundle`, with the
fields the handlers assign (`BundleType` is the field `Type`). -/
structure EntryBundle (α : Type) where
  BundleType : String
  Title : String
  Id : String
  Updated : Nat
  TotalResults : Nat
  Entry : List (BundleEntry α)
deriving DecidableEq

/-- Modelled from the spec: `models.EncounterBundle` / `models.LocationBundle` /
`models.SupplyBundle`, with the fields the handlers assign (`BundleType` is the field `Type`). -/
structure ResourceBundle (α : Type) where
  BundleType : String
  Title : String
  Id : String
  Updated : Nat
  TotalResults : Nat
  Entries : List (Record α)
deriving DecidableEq

/-- The Go values the handlers put in the request context or encode as JSON. -/
inductive Value (α : Type) where
  | null
  | str (s : String)
  | record (r : Record α)
  | records (rs : List (Record α))
  | entryBundle (b : EntryBundle α)
  | resourceBundle (b : ResourceBundle α)
deriving DecidableEq

/-- Number of entries of an encoded bundle (zero for a value that is no bundle). -/
def Value.entryCount {α : Type} : Value α → Nat
  | .entryBundle b => b.Entry.length
  | .resourceBundle b => b.Entries.length
  | _ => 0

/-- The `totalResults` of an encoded bundle. -/
def Value.totalResults {α : Type} : Value α → Option Nat
  | .entryBundle b => some b.TotalResults
  | .resourceBundle b => some b.TotalResults
  | _ => none

/-! ## `net/http`: headers and the response writer -/

/-- Go `http.Header`, a map from (canonical) key to values. -/
abbrev Header := List (String × List String)

/-- Go `Header.Values(key)` (all keys used here are already in canonical form). -/
def Header.Values (h : Header) (key : String) : List String :=
  match h.lookup key with
  | some vs => vs
  | none => []

/-- Go `Header.Set(key, value)`: the key now maps to the single value. -/
def Header.Set (h : Header) (key value : String) : Header :=
  (key, [value]) :: h.filter (fun kv => kv.1 != key)

/-- Go `Header.Add(key, value)`: the value is appended to the values of the key. -/
def Header.Add (h : Header) (key value : String) : Header :=
  (key, h.Values key ++ [value]) :: h.filter (fun kv => kv.1 != key)

/-- What has been written to the response body. -/
inductive Chunk (α : Type) where
  | text (s : String)
  | json (v : Value α)
deriving DecidableEq

/-- Go `http.ResponseWriter`: the header map the handler edits, and what went out:
the first status written with the headers as they were at that moment, and the body. -/
structure ResponseWriter (α : Type) where
  header : Header
  wroteHeader : Bool
  status : Nat
  sent : Header
  body : List (Chunk α)
deriving DecidableEq

/-- Go `WriteHeader(code)`: sends the status line and the current headers; a second
call is ignored. -/
def ResponseWriter.WriteHeader {α : Type} (w : ResponseWriter α) (code : Nat) : ResponseWriter α :=
  if w.wroteHeader then w
  else { w with wroteHeader := true, status := code, sent := w.header }

/-- Go `Write`: an implicit `WriteHeader(200)` when no status was written yet, then
the data. -/
def ResponseWriter.Write {α : Type} (w : ResponseWriter α) (c : Chunk α) : ResponseWriter α :=
  let w1 := w.WriteHeader 200
  { w1 with body := w1.body ++ [c] }

/-- Go `http.Error(w, error, code)`. -/
def ResponseWriter.Error {α : Type} (w : ResponseWriter α) (error : String) (code : Nat) :
    ResponseWriter α :=
  let h := (w.header.Set "Content-Type" "text/plain; charset=utf-8").Set
    "X-Content-Type-Options" "nosniff"
  ({ w with header := h }.WriteHeader code).Write (.text (error ++ "\n"))

/-- The response as the client receives it when the handler has returned: when nothing
was written the server sends status 200 with the headers as they are then. -/
def ResponseWriter.finish {α : Type} (w : ResponseWriter α) : ResponseWriter α :=
  w.WriteHeader 200

/-- The status that went out, if one was written: the first status written. -/
def ResponseWriter.statusWritten {α : Type} (w : ResponseWriter α) : Option Nat :=
  if w.wroteHeader then some w.status else none

/-- The response, as the client receives it, carries the headers
`Content-Type: application/json; charset=utf-8` and `Access-Control-Allow-Origin: *`. -/
def ResponseWriter.carriesJsonHeaders {α : Type} (w : ResponseWriter α) : Prop :=
  w.finish.sent.Values "Content-Type" = ["application/json; charset=utf-8"] ∧
    w.finish.sent.Values "Access-Control-Allow-Origin" = ["*"]

/-- Neither the header map nor the headers already sent hold
`Access-Control-Allow-Origin` or the JSON content type. -/
def ResponseWriter.lacksJsonHeaders {α : Type} (w : ResponseWriter α) : Prop :=
  (w.header.Values "Access-Control-Allow-Origin" = [] ∧
    w.header.Values "Content-Type" ≠ ["application/json; charset=utf-8"]) ∧
  (w.sent.Values "Access-Control-Allow-Origin" = [] ∧
    w.sent.Values "Content-Type" ≠ ["application/json; charset=utf-8"])

/-- A response writer nothing has been written to. -/
def ResponseWriter.new {α : Type} : ResponseWriter α :=
  { header := [], wroteHeader := false, status := 0, sent := [], body := [] }

/-! ## `gorilla/context` -/

/-- The key-value data `gorilla/context` keeps for one request. -/
abbrev Context (α : Type) := List (String × Value α)

/-- Go `context.Set(r, key, val)`. -/
def Context.Set {α : Type} (ctx : Context α) (key : String) (val : Value α) : Context α :=
  (key, val) :: ctx.filter (fun kv => kv.1 != key)

/-- Go `context.Get(r, key)`: `nil` when the key is absent. -/
def Context.Get {α : Type} (ctx : Context α) (key : String) : Value α :=
  match ctx.lookup key with
  | some v => v
  | none => .null

/-! ## The `mgo` collection -/

/-- The selectors the handlers build: `nil`, `bson.M{"_id": id}` and
`bson.M{"patient.referenceid": v}`. -/
inductive Selector where
  | all
  | byId (id : String)
  | byPatient (v : String)
deriving DecidableEq

/-- A call a handler makes on its collection. -/
inductive StoreCall (α : Type) where
  | All (sel : Selector) (limit : Option Nat)
  | One (sel : Selector)
  | Insert (doc : Record α)
  | Update (sel : Selector) (doc : Record α)
  | Remove (sel : Selector)
deriving DecidableEq

/-- The collection `Database.C(name)` of a handler as a capability over a store state `σ`:
`All` is `Find(sel)[.Limit(n)]...All(&result)` and gives the documents put in `result`
and the error, `One` is `Find(sel).One(&result)`. -/
structure Collection (σ α : Type) where
  All : σ → Selector → Option Nat → List (Record α) × Option String
  One : σ → Selector → Except String (Record α)
  Insert : σ → Record α → σ × Option String
  Update : σ → Selector → Record α → σ × Option String
  Remove : σ → Selector → σ × Option String

/-- Whether a document matches a selector. -/
def Selector.matches {α : Type} (sel : Selector) (d : Record α) : Bool :=
  match sel with
  | .all => true
  | .byId id => d.Id == id
  | .byPatient v => d.Patient == some v

/-- Replace the first document matching the selector. -/
def replaceFirst {α : Type} (sel : Selector) (d : Record α) : List (Record α) → List (Record α)
  | [] => []
  | x :: xs => if sel.matches x then d :: xs else x :: replaceFirst sel d xs

/-- A collection as a map from `_id` to document, kept as the list of its documents:
`Insert` refuses a duplicate `_id`; `One`, `Update` and `Remove` fail with `mgo.ErrNotFound`
("not found") when no document matches and then change nothing. -/
def docStore (α : Type) : Collection (List (Record α)) α where
  All docs sel limit :=
    (match limit with
      | some n => (docs.filter sel.matches).take n
      | none => docs.filter sel.matches, none)
  One docs sel :=
    match docs.find? sel.matches with
    | some d => .ok d
    | none => .error "not found"
  Insert docs d :=
    if docs.any (fun x => x.Id == d.Id) then (docs, some "duplicate key error")
    else (docs ++ [d], none)
  Update docs sel d :=
    if docs.any sel.matches then (replaceFirst sel d docs, none)
    else (docs, some "not found")
  Remove docs sel :=
    if docs.any sel.matches then (docs.eraseP sel.matches, none)
    else (docs, some "not found")

/-! ## Requests and handler state -/

/-- What a handler reads from `*http.Request`: the route variables `mux.Vars(r)`, the
parsed form `r.Form` as the sequence of keys the `range` loop visits (each key with its
first value and the remaining values), and the outcome of `decoder.Decode` on the body:
the record left in the target and the error. -/
structure Request (α : Type) where
  Vars : List (String × String)
  Form : List (String × String × List String)
  Body : Record α × Option String

/-- Go `mux.Vars(r)[key]`: the empty string when the key is missing. -/
def Request.Var {α : Type} (r : Request α) (key : String) : String :=
  match r.Vars.lookup key with
  | some v => v
  | none => ""

/-- What the handlers get from their environment: the identifier `bson.NewObjectId()`
returns, `time.Now()`, and the result of `os.Hostname()`. -/
structure Env where
  NewObjectId : ObjectId
  Now : Nat
  Hostname : String × Option String

/-- The state a handler works on: the response writer, the request context, the state of
its collection, and the calls made on the collection so far. -/
structure State (σ α : Type) where
  rw : ResponseWriter α
  ctx : Context α
  db : σ
  calls : List (StoreCall α)

/-- The state at the start of a request. -/
def State.start {σ α : Type} (ctx : Context α) (db : σ) : State σ α :=
  { rw := ResponseWriter.new, ctx := ctx, db := db, calls := [] }

/-- Go `http.Error(rw, msg, code)`. -/
def State.Error {σ α : Type} (s : State σ α) (msg : String) (code : Nat) : State σ α :=
  { s with rw := s.rw.Error msg code }

/-- The `http.Error(rw, err.Error(), http.StatusInternalServerError)` of an
`if err != nil` block without `return`. -/
def State.ErrorIf {σ α : Type} (s : State σ α) (err : Option String) : State σ α :=
  match err with
  | some e => s.Error e 500
  | none => s

/-- Go `rw.Header().Set(key, value)`. -/
def State.HeaderSet {σ α : Type} (s : State σ α) (key value : String) : State σ α :=
  { s with rw := { s.rw with header := s.rw.header.Set key value } }

/-- Go `rw.Header().Add(key, value)`. -/
def State.HeaderAdd {σ α : Type} (s : State σ α) (key value : String) : State σ α :=
  { s with rw := { s.rw with header := s.rw.header.Add key value } }

/-- Go `json.NewEncoder(rw).Encode(v)`. -/
def State.Encode {σ α : Type} (s : State σ α) (v : Value α) : State σ α :=
  { s with rw := s.rw.Write (.json v) }

/-- Go `context.Set(r, key, val)`. -/
def State.ContextSet {σ α : Type} (s : State σ α) (key : String) (val : Value α) : State σ α :=
  { s with ctx := s.ctx.Set key val }

/-- Record a call on the collection. -/
def State.call {σ α : Type} (s : State σ α) (c : StoreCall α) : State σ α :=
  { s with calls := s.calls ++ [c] }

/-- The store state after a call that may write. -/
def State.setDb {σ α : Type} (s : State σ α) (db : σ) : State σ α :=
  { s with db := db }

/-- The route id of a request as the handlers read it: `idString := mux.Vars(r)["id"]`,
then `id = bson.ObjectIdHex(idString)` when `bson.IsObjectIdHex(idString)`, and otherwise
`id` keeps its zero value. (`ObjectIdHex` does not panic under the guard, see
`ObjectIdHex_isSome`.) -/
def routeId {α : Type} (r : Request α) : ObjectId :=
  if IsObjectIdHex (r.Var "id") then ((ObjectIdHex (r.Var "id")).getD ObjectId.zero)
  else ObjectId.zero

/-- The `else` branch `http.Error(rw, "Invalid id", http.StatusBadRequest)` of the route
id check of the Show, Update and Delete handlers; the handler goes on after it. -/
def State.checkId {σ α : Type} (s : State σ α) (r : Request α) : State σ α :=
  if IsObjectIdHex (r.Var "id") then s else s.Error "Invalid id" 400

/-! ## Handlers of `encounter.go`, `location.go`, `supply.go`

The three files are the same text up to the resource name, given here as `name`. -/

/-- Handler `EncounterIndexHandler` and its copies. -/
def ResourceIndexHandler {σ α : Type} (name : String) (C : Collection σ α) (env : Env)
    (_r : Request α) (s : State σ α) : State σ α :=
  let found := C.All s.db .all (some 100)
  let result := found.1
  let s := (s.call (.All .all (some 100))).ErrorIf found.2
  let bundle : ResourceBundle α :=
    { BundleType := "Bundle", Title := name ++ " Index", Id := env.NewObjectId.Hex,
      Updated := env.Now, TotalResults := result.length, Entries := result }
  let s := s.ContextSet name (.records result)
  let s := s.ContextSet "Resource" (.str name)
  let s := s.ContextSet "Action" (.str "search")
  let s := s.HeaderSet "Content-Type" "application/json; charset=utf-8"
  let s := s.HeaderSet "Access-Control-Allow-Origin" "*"
  s.Encode (.resourceBundle bundle)

/-- Handler `EncounterShowHandler` and its copies. -/
def ResourceShowHandler {σ α : Type} (name : String) (C : Collection σ α)
    (r : Request α) (s : State σ α) : State σ α :=
  let id := routeId r
  let s := s.checkId r
  let found := C.One s.db (.byId id.Hex)
  let s := s.call (.One (.byId id.Hex))
  match found with
  | .error e => s.Error e 500
  | .ok result =>
    let s := s.ContextSet name (.record result)
    let s := s.ContextSet "Resource" (.str name)
    let s := s.ContextSet "Action" (.str "read")
    let s := s.HeaderSet "Content-Type" "application/json; charset=utf-8"
    let s := s.HeaderSet "Access-Control-Allow-Origin" "*"
    s.Encode (.record result)

/-! ## Handlers shared by all five files

Create, Update and Delete have the same text in all five files up to the resource name
and, for Create, the literal between the host and the id in the Location header
(`":3001/Goal/"`, `":8080/Encounter/"`, ...), given here as `loc`. -/

/-- Handler `GoalCreateHandler`, `EncounterCreateHandler` and their copies. -/
def CreateHandler {σ α : Type} (name loc : String) (C : Collection σ α) (env : Env)
    (r : Request α) (s : State σ α) : State σ α :=
  let goal := r.Body.1
  let s := s.ErrorIf r.Body.2
  let i := env.NewObjectId
  let goal := { goal with Id := i.Hex }
  let ins := C.Insert s.db goal
  let s := ((s.setDb ins.1).call (.Insert goal)).ErrorIf ins.2
  let s := s.ContextSet name (.record goal)
  let s := s.ContextSet "Resource" (.str name)
  let s := s.ContextSet "Action" (.str "create")
  let host := env.Hostname.1
  let s := s.ErrorIf env.Hostname.2
  s.HeaderAdd "Location" ("http://" ++ host ++ loc ++ i.Hex)

/-- Handler `GoalUpdateHandler`, `EncounterUpdateHandler` and their copies. -/
def UpdateHandler {σ α : Type} (name : String) (C : Collection σ α)
    (r : Request α) (s : State σ α) : State σ α :=
  let id := routeId r
  let s := s.checkId r
  let goal := r.Body.1
  let s := s.ErrorIf r.Body.2
  let goal := { goal with Id := id.Hex }
  let upd := C.Update s.db (.byId id.Hex) goal
  let s := ((s.setDb upd.1).call (.Update (.byId id.Hex) goal)).ErrorIf upd.2
  let s := s.ContextSet name (.record goal)
  let s := s.ContextSet "Resource" (.str name)
  s.ContextSet "Action" (.str "update")

/-- Handler `GoalDeleteHandler`, `EncounterDeleteHandler` and their copies. -/
def DeleteHandler {σ α : Type} (name : String) (C : Collection σ α)
    (r : Request α) (s : State σ α) : State σ α :=
  let id := routeId r
  let s := s.checkId r
  let rem := C.Remove s.db (.byId id.Hex)
  let s := (s.setDb rem.1).call (.Remove (.byId id.Hex))
  match rem.2 with
  | some e => s.Error e 500
  | none =>
    let s := s.ContextSet name (.str id.Hex)
    let s := s.ContextSet "Resource" (.str name)
    s.ContextSet "Action" (.str "delete")

/-! ## Handlers of `goal.go` and `processrequest.go` -/

/-- Go `strings.Split(s, sep)` for a one-character separator, on the characters. -/
def splitChars (sep : Char) : List Char → List (List Char)
  | [] => [[]]
  | c :: cs =>
    if c = sep then [] :: splitChars sep cs
    else
      match splitChars sep cs with
      | [] => [[c]]
      | p :: ps => (c :: p) :: ps

/-- Go `strings.Split(s, ":")`. -/
def Split (s : String) : List String := (splitChars ':' s.data).map String.mk

/-- The entries the Index handlers of `goal.go` and `processrequest.go` build from
`result`. -/
def entryList {α : Type} (name : String) (result : List (Record α)) : List (BundleEntry α) :=
  result.map fun goal => { Title := name ++ " " ++ goal.Id, Id := goal.Id, Content := goal }

/-- The part of the Index handlers of `goal.go` and `processrequest.go` after `result`
is filled: entries, bundle, context, headers, encoding. -/
def entryIndexTail {σ α : Type} (name : String) (env : Env) (result : List (Record α))
    (s : State σ α) : State σ α :=
  let bundle : EntryBundle α :=
    { BundleType := "Bundle", Title := name ++ " Index", Id := env.NewObjectId.Hex,
      Updated := env.Now, TotalResults := result.length, Entry := entryList name result }
  let s := s.ContextSet name (.records result)
  let s := s.ContextSet "Resource" (.str name)
  let s := s.ContextSet "Action" (.str "search")
  let s := s.HeaderSet "Content-Type" "application/json; charset=utf-8"
  let s := s.HeaderSet "Access-Control-Allow-Origin" "*"
  s.Encode (.entryBundle bundle)

/-- Handler `ProcessRequestIndexHandler`. -/
def ProcessRequestIndexHandler {σ α : Type} (C : Collection σ α) (env : Env)
    (_r : Request α) (s : State σ α) : State σ α :=
  let found := C.All s.db .all (some 100)
  let s := (s.call (.All .all (some 100))).ErrorIf found.2
  entryIndexTail "ProcessRequest" env found.1 s

/-- One round of the `for key, value := range r.Form` loop of `GoalIndexHandler`, on
`result` and the state. -/
def goalIndexStep {σ α : Type} (C : Collection σ α)
    (acc : List (Record α) × State σ α) (kv : String × String × List String) :
    List (Record α) × State σ α :=
  let key := kv.1
  let value0 := kv.2.1
  let splitKey := Split key
  if splitKey.length > 1 ∧ splitKey.head? = some "patient" then
    let found := C.All acc.2.db (.byPatient value0) none
    (found.1, (acc.2.call (.All (.byPatient value0) none)).ErrorIf found.2)
  else acc

/-- Handler `GoalIndexHandler`. -/
def GoalIndexHandler {σ α : Type} (C : Collection σ α) (env : Env)
    (r : Request α) (s : State σ α) : State σ α :=
  if r.Form.length = 0 then
    let found := C.All s.db .all (some 100)
    let s := (s.call (.All .all (some 100))).ErrorIf found.2
    entryIndexTail "Goal" env found.1 s
  else
    let looped := r.Form.foldl (goalIndexStep C) ([], s)
    entryIndexTail "Goal" env looped.1 looped.2

/-- Loaders `LoadGoal` and `LoadProcessRequest`: the error (if any) and the state. -/
def LoadResource {σ α : Type} (name : String) (C : Collection σ α)
    (r : Request α) (s : State σ α) : Option String × State σ α :=
  if IsObjectIdHex (r.Var "id") then
    let id := (ObjectIdHex (r.Var "id")).getD ObjectId.zero
    let found := C.One s.db (.byId id.Hex)
    let s := s.call (.One (.byId id.Hex))
    match found with
    | .error e => (some e, s)
    | .ok result =>
      let s := s.ContextSet name (.record result)
      (none, s.ContextSet "Resource" (.str name))
  else (some "Invalid id", s)

/-- Handler `GoalShowHandler` and `ProcessRequestShowHandler`. -/
def EntryShowHandler {σ α : Type} (name : String) (C : Collection σ α)
    (r : Request α) (s : State σ α) : State σ α :=
  let s := s.ContextSet "Action" (.str "read")
  let loaded := LoadResource name C r s
  let s := loaded.2.ErrorIf loaded.1
  let s := s.HeaderSet "Content-Type" "application/json; charset=utf-8"
  let s := s.HeaderSet "Access-Control-Allow-Origin" "*"
  s.Encode (s.ctx.Get name)

/-- The test of the loop of `GoalIndexHandler` on a key:
`len(splitKey) > 1 && splitKey[0] == "patient"`. -/
def isPatientKey (key : String) : Bool :=
  decide ((Split key).length > 1 ∧ (Split key).head? = some "patient")

/-- A query parameter name of the recognised form `patient:<modifier>`. -/
def IsPatientParam (key : String) : Prop :=
  ∃ modifier : String, key = "patient:" ++ modifier

/-- The values of the query parameters that pass the test of the loop of
`GoalIndexHandler`, in the order the loop visits them. -/
def patientValues (form : List (String × String × List String)) : List String :=
  (form.filter (fun kv => isPatientKey kv.1)).map (fun kv => kv.2.1)

/-- The value encoded in a chunk of the body (`null` for plain text). -/
def Chunk.value {α : Type} : Chunk α → Value α
  | .json v => v
  | .text _ => .null

/-! ## The five handler sets -/

/-- The resources whose handler files are modelled. -/
inductive Resource where
  | Goal
  | ProcessRequest
  | Encounter
  | Location
  | Supply
deriving DecidableEq

/-- The resource name used in context keys, titles and URLs. -/
def Resource.name : Resource → String
  | .Goal => "Goal"
  | .ProcessRequest => "ProcessRequest"
  | .Encounter => "Encounter"
  | .Location => "Location"
  | .Supply => "Supply"

/-- The port written in the Location header of the resource. -/
def Resource.port : Resource → String
  | .Goal => "3001"
  | .ProcessRequest => "3001"
  | .Encounter => "8080"
  | .Location => "8080"
  | .Supply => "8080"

/-- The literal between host and id in the Location header of the resource. -/
def Resource.loc : Resource → String
  | .Goal => ":3001/Goal/"
  | .ProcessRequest => ":3001/ProcessRequest/"
  | .Encounter => ":8080/Encounter/"
  | .Location => ":8080/Location/"
  | .Supply => ":8080/Supply/"

/-- The Index handler of a resource. -/
def IndexHandler {σ α : Type} (res : Resource) (C : Collection σ α) (env : Env)
    (r : Request α) (s : State σ α) : State σ α :=
  match res with
  | .Goal => GoalIndexHandler C env r s
  | .ProcessRequest => ProcessRequestIndexHandler C env r s
  | .Encounter => ResourceIndexHandler "Encounter" C env r s
  | .Location => ResourceIndexHandler "Location" C env r s
  | .Supply => ResourceIndexHandler "Supply" C env r s

/-- The Show handler of a resource. -/
def ShowHandler {σ α : Type} (res : Resource) (C : Collection σ α)
    (r : Request α) (s : State σ α) : State σ α :=
  match res with
  | .Goal => EntryShowHandler "Goal" C r s
  | .ProcessRequest => EntryShowHandler "ProcessRequest" C r s
  | .Encounter => ResourceShowHandler "Encounter" C r s
  | .Location => ResourceShowHandler "Location" C r s
  | .Supply => ResourceShowHandler "Supply" C r s

/-- Handler `GoalShowHandler`. -/
def GoalShowHandler {σ α : Type} (C : Collection σ α) (r : Request α) (s : State σ α) :
    State σ α := ShowHandler .Goal C r s

/-- Handler `EncounterShowHandler`. -/
def EncounterShowHandler {σ α : Type} (C : Collection σ α) (r : Request α) (s : State σ α) :
    State σ α := ShowHandler .Encounter C r s

/-- Handler `GoalCreateHandler`. -/
def GoalCreateHandler {σ α : Type} (C : Collection σ α) (env : Env) (r : Request α)
    (s : State σ α) : State σ α := CreateHandler "Goal" ":3001/Goal/" C env r s

/-- Handler `GoalUpdateHandler`. -/
def GoalUpdateHandler {σ α : Type} (C : Collection σ α) (r : Request α) (s : State σ α) :
    State σ α := UpdateHandler "Goal" C r s

/-- Handler `GoalDeleteHandler`. -/
def GoalDeleteHandler {σ α : Type} (C : Collection σ α) (r : Request α) (s : State σ α) :
    State σ α := DeleteHandler "Goal" C r s

/-- Handler `EncounterUpdateHandler`. -/
def EncounterUpdateHandler {σ α : Type} (C : Collection σ α) (r : Request α) (s : State σ α) :
    State σ α := UpdateHandler "Encounter" C r s

/-- Handler `LocationDeleteHandler`. -/
def LocationDeleteHandler {σ α : Type} (C : Collection σ α) (r : Request α) (s : State σ α) :
    State σ α := DeleteHandler "Location" C r s

/-- The Create handler of a resource. -/
def ResourceCreate {σ α : Type} (res : Resource) (C : Collection σ α) (env : Env)
    (r : Request α) (s : State σ α) : State σ α :=
  CreateHandler res.name res.loc C env r s

/-- The Update handler of a resource. -/
def ResourceUpdate {σ α : Type} (res : Resource) (C : Collection σ α)
    (r : Request α) (s : State σ α) : State σ α :=
  UpdateHandler res.name C r s

/-- The Delete handler of a resource. -/
def ResourceDelete {σ α : Type} (res : Resource) (C : Collection σ α)
    (r : Request α) (s : State σ α) : State σ α :=
  DeleteHandler res.name C r s

/-- Whether the Show handler of the resource goes through a loader (`LoadGoal`,
`LoadProcessRequest`). -/
def Resource.usesLoader : Resource → Bool
  | .Goal => true
  | .ProcessRequest => true
  | _ => false

/-- A collection whose every call fails (the server cannot be reached). -/
def brokenStore (α : Type) : Collection Unit α where
  All _ _ _ := ([], some "no reachable servers")
  One _ _ := .error "no reachable servers"
  Insert db _ := (db, some "no reachable servers")
  Update db _ _ := (db, some "no reachable servers")
  Remove db _ := (db, some "no reachable servers")

/-! ## Route registration (`routing.go`)

The `gin` engine is kept as the handler chain of its root group and the list of the
routes registered so far; a path is the list of the relative paths as they are written in
the calls (`"/" + name`, then `"/:id"`, then the route's own), from which `gin` computes
the absolute path. -/

/-- Modelled from the spec: the values of `config.Auth.Method` (package `auth`, not among
the source files): the constants `auth.AuthTypeNone`, `auth.AuthTypeOIDC`,
`auth.AuthTypeHEART`, and `other` for a value that is none of the three (the `switch`
statements have no default case). -/
inductive AuthType where
  | None
  | OIDC
  | HEART
  | other (method : String)
deriving DecidableEq

/-- Modelled from the spec: the field `Auth` of the server `Config` (not among the source
files), with the fields `routing.go` reads. -/
structure AuthConfig where
  Method : AuthType
  SessionSecret : String
  ClientID : String
  ClientSecret : String
  AuthorizationURL : String
  TokenURL : String
  IntrospectionURL : String
  UserInfoURL : String
  JWKPath : String
  OPURL : String
deriving DecidableEq

/-- Modelled from the spec: the server `Config` (not among the source files), with the
fields `routing.go` reads. -/
structure Config where
  Auth : AuthConfig
  ServerURL : String
deriving DecidableEq

/-- Go `oauth2.Config` with the fields `RegisterRoutes` fills in (`AuthURL` and `TokenURL`
are those of `Endpoint`). -/
structure OAuthConfig where
  ClientID : String
  ClientSecret : String
  AuthURL : String
  TokenURL : String
deriving DecidableEq

/-- The handler methods of a resource controller that `RegisterController` binds. -/
inductive ControllerOp where
  | IndexHandler
  | CreateHandler
  | ConditionalUpdateHandler
  | ConditionalDeleteHandler
  | ShowHandler
  | UpdateHandler
  | DeleteHandler
deriving DecidableEq

/-- The values of type `gin.HandlerFunc` that occur in `routing.go`: a handler passed in
by the caller (`given`, over a type `μ` of such handlers), the handlers built by the calls
`auth.HEARTScopesHandler(name)`, `sessions.Sessions(name, store)` (the store being
`sessions.NewCookieStore([]byte(secret))`), `auth.OIDCAuthenticationHandler(oauthConfig)`,
`auth.OAuthIntrospectionHandler(clientID, clientSecret, introspectionURL)`,
`auth.RedirectHandler(oauthConfig, serverURL, userInfoURL)`, `heart.LogoutHandler`, the
function literal of `RegisterRoutes` with the two handlers it captures (`authSwitch`),
`NewBatchController(dal).Post`, and the methods of `NewResourceController(name, dal)`
(over a type `δ` of data access layers). -/
inductive HandlerFunc (μ δ : Type) where
  | given (h : μ)
  | HEARTScopesHandler (name : String)
  | Sessions (name : String) (secret : String)
  | OIDCAuthenticationHandler (oauthConfig : OAuthConfig)
  | OAuthIntrospectionHandler (clientID clientSecret introspectionURL : String)
  | RedirectHandler (oauthConfig : OAuthConfig) (serverURL userInfoURL : String)
  | LogoutHandler
  | authSwitch (oauthHandler oidcHandler : HandlerFunc μ δ)
  | BatchPost (dal : δ)
  | controller (name : String) (dal : δ) (op : ControllerOp)
deriving DecidableEq

/-- A registered route: method, path and handler chain. -/
structure RouteInfo (μ δ : Type) where
  Method : String
  Path : List String
  Handlers : List (HandlerFunc μ δ)
deriving DecidableEq

/-- Go `gin.RouterGroup`: the handler chain of the group and its base path. -/
structure RouterGroup (μ δ : Type) where
  Handlers : List (HandlerFunc μ δ)
  basePath : List String
deriving DecidableEq

/-- Go `gin.Engine`: the handler chain of its root group and the routes registered. (The
limit `gin` puts on the length of a handler chain is not modelled.) -/
structure Engine (μ δ : Type) where
  Handlers : List (HandlerFunc μ δ)
  routes : List (RouteInfo μ δ)
deriving DecidableEq

/-- Go `gin.New()`: an engine without middleware and without routes. -/
def Engine.new {μ δ : Type} : Engine μ δ := { Handlers := [], routes := [] }

/-- Go `e.Use(middleware...)` on the engine. -/
def Engine.Use {μ δ : Type} (e : Engine μ δ) (middleware : List (HandlerFunc μ δ)) :
    Engine μ δ :=
  { e with Handlers := e.Handlers ++ middleware }

/-- The root group of the engine. -/
def Engine.root {μ δ : Type} (e : Engine μ δ) : RouterGroup μ δ :=
  { Handlers := e.Handlers, basePath := [] }

/-- Go `group.Group(relativePath)`: a new group that starts with the handler chain of its
parent. -/
def RouterGroup.Group {μ δ : Type} (g : RouterGroup μ δ) (relativePath : String) :
    RouterGroup μ δ :=
  { Handlers := g.Handlers, basePath := g.basePath ++ [relativePath] }

/-- Go `e.Group(relativePath)` on the engine. -/
def Engine.Group {μ δ : Type} (e : Engine μ δ) (relativePath : String) : RouterGroup μ δ :=
  e.root.Group relativePath

/-- Go `group.Use(middleware...)`. -/
def RouterGroup.Use {μ δ : Type} (g : RouterGroup μ δ) (middleware : List (HandlerFunc μ δ)) :
    RouterGroup μ δ :=
  { g with Handlers := g.Handlers ++ middleware }

/-- Go `group.GET(relativePath, handlers...)` and the like: the route gets the chain of
the group followed by the handlers given. -/
def Engine.handle {μ δ : Type} (e : Engine μ δ) (g : RouterGroup μ δ) (httpMethod : String)
    (relativePath : String) (handlers : List (HandlerFunc μ δ)) : Engine μ δ :=
  { e with routes := e.routes ++
      [{ Method := httpMethod, Path := g.basePath ++ [relativePath],
         Handlers := g.Handlers ++ handlers }] }

/-- The group `rcBase` of `RegisterController` once its middleware is attached: `m` when
`len(m) > 0`, then the scope check of the `switch` on the auth method. -/
def controllerGroup {μ δ : Type} (name : String) (e : Engine μ δ)
    (m : List (HandlerFunc μ δ)) (config : Config) : RouterGroup μ δ :=
  let rcBase := e.Group ("/" ++ name)
  let rcBase := if m.length > 0 then rcBase.Use m else rcBase
  match config.Auth.Method with
  | .None => rcBase
  | .OIDC => rcBase.Use [.HEARTScopesHandler name]
  | .HEART => rcBase.Use [.HEARTScopesHandler name]
  | .other _ => rcBase

/-- Go `RegisterController`. -/
def RegisterController {μ δ : Type} (name : String) (e : Engine μ δ)
    (m : List (HandlerFunc μ δ)) (dal : δ) (config : Config) : Engine μ δ :=
  let rcBase := controllerGroup name e m config
  let e := e.handle rcBase "GET" "" [.controller name dal .IndexHandler]
  let e := e.handle rcBase "POST" "" [.controller name dal .CreateHandler]
  let e := e.handle rcBase "PUT" "" [.controller name dal .ConditionalUpdateHandler]
  let e := e.handle rcBase "DELETE" "" [.controller name dal .ConditionalDeleteHandler]
  let rcItem := rcBase.Group "/:id"
  let e := e.handle rcItem "GET" "" [.controller name dal .ShowHandler]
  let e := e.handle rcItem "PUT" "" [.controller name dal .UpdateHandler]
  e.handle rcItem "DELETE" "" [.controller name dal .DeleteHandler]

/-- The resource names of the `RegisterController` calls of `RegisterRoutes`, in order. -/
def resourceNames : List String :=
  ["Appointment", "ReferralRequest", "Account", "Provenance", "Questionnaire",
   "ExplanationOfBenefit", "DocumentManifest", "Specimen", "AllergyIntolerance", "CarePlan",
   "Goal", "StructureDefinition", "EnrollmentRequest", "EpisodeOfCare", "OperationOutcome",
   "Medication", "Procedure", "List", "ConceptMap", "Subscription", "ValueSet",
   "OperationDefinition", "DocumentReference", "Order", "Immunization", "Device",
   "VisionPrescription", "Media", "Conformance", "ProcedureRequest", "EligibilityResponse",
   "DeviceUseRequest", "DeviceMetric", "Flag", "RelatedPerson", "SupplyRequest",
   "Practitioner", "AppointmentResponse", "Observation", "MedicationAdministration", "Slot",
   "EnrollmentResponse", "Binary", "MedicationStatement", "Person", "Contract",
   "CommunicationRequest", "RiskAssessment", "TestScript", "Basic", "Group", "PaymentNotice",
   "Organization", "ImplementationGuide", "ClaimResponse", "EligibilityRequest",
   "ProcessRequest", "MedicationDispense", "DiagnosticReport", "ImagingStudy",
   "ImagingObjectSelection", "HealthcareService", "DataElement", "DeviceComponent",
   "FamilyMemberHistory", "NutritionOrder", "Encounter", "Substance", "AuditEvent",
   "MedicationOrder", "SearchParameter", "PaymentReconciliation", "Communication", "Condition",
   "Composition", "DetectedIssue", "Bundle", "DiagnosticOrder", "Patient", "OrderResponse",
   "Coverage", "QuestionnaireResponse", "DeviceUseStatement", "ProcessResponse",
   "NamingSystem", "Schedule", "SupplyDelivery", "ClinicalImpression", "MessageHeader",
   "Claim", "ImmunizationRecommendation", "Location", "BodySite"]

/-- Go `config[key]` on the `map[string][]gin.HandlerFunc` of `RegisterRoutes`: `nil` for
a missing key. -/
def middlewareOf {μ δ : Type} (config : List (String × List (HandlerFunc μ δ)))
    (key : String) : List (HandlerFunc μ δ) :=
  match config.lookup key with
  | some m => m
  | none => []

/-- The part of `RegisterRoutes` before the batch route: the `switch` on the auth method.
`SetUpRoutes` stands for `heart.SetUpRoutes` with the arguments JWK path, client id,
provider URL, server URL and session secret. -/
def setUpAuth {μ δ : Type} (e : Engine μ δ) (serverConfig : Config)
    (SetUpRoutes : String → String → String → String → String → Engine μ δ → Engine μ δ) :
    Engine μ δ :=
  match serverConfig.Auth.Method with
  | .None => e
  | .OIDC =>
    let e := e.Use [.Sessions "mysession" serverConfig.Auth.SessionSecret]
    let oauthConfig : OAuthConfig :=
      { ClientID := serverConfig.Auth.ClientID, ClientSecret := serverConfig.Auth.ClientSecret,
        AuthURL := serverConfig.Auth.AuthorizationURL, TokenURL := serverConfig.Auth.TokenURL }
    let oidcHandler : HandlerFunc μ δ := .OIDCAuthenticationHandler oauthConfig
    let oauthHandler : HandlerFunc μ δ :=
      .OAuthIntrospectionHandler serverConfig.Auth.ClientID serverConfig.Auth.ClientSecret
        serverConfig.Auth.IntrospectionURL
    let e := e.Use [.authSwitch oauthHandler oidcHandler]
    let e := e.handle e.root "GET" "/redirect"
      [.RedirectHandler oauthConfig serverConfig.ServerURL serverConfig.Auth.UserInfoURL]
    e.handle e.root "GET" "/logout" [.LogoutHandler]
  | .HEART =>
    SetUpRoutes serverConfig.Auth.JWKPath serverConfig.Auth.ClientID serverConfig.Auth.OPURL
      serverConfig.ServerURL serverConfig.Auth.SessionSecret e
  | .other _ => e

/-- Go `RegisterRoutes`. -/
def RegisterRoutes {μ δ : Type} (e : Engine μ δ)
    (config : List (String × List (HandlerFunc μ δ))) (dal : δ) (serverConfig : Config)
    (SetUpRoutes : String → String → String → String → String → Engine μ δ → Engine μ δ) :
    Engine μ δ :=
  let e := setUpAuth e serverConfig SetUpRoutes
  let batchHandlers := middlewareOf config "Batch" ++ [.BatchPost dal]
  let e := e.handle e.root "POST" "/" batchHandlers
  resourceNames.foldl
    (fun e name => RegisterController name e (middlewareOf config name) dal serverConfig) e

/-- Go `Header.Get(key)`: the first value of the key, or the empty string. -/
def Header.Get (h : Header) (key : String) : String :=
  match h.Values key with
  | [] => ""
  | v :: _ => v

/-- The handlers a handler of `routing.go` calls on a request with the given header: the
function literal of `RegisterRoutes` calls `oauthHandler(c)` when
`c.Request.Header.Get("Authorization") != ""` and `oidcHandler(c)` otherwise; the other
handlers are not of this file and call none of its handlers. -/
def HandlerFunc.calls {μ δ : Type} (h : HandlerFunc μ δ) (requestHeader : Header) :
    List (HandlerFunc μ δ) :=
  match h with
  | .authSwitch oauthHandler oidcHandler =>
    if requestHeader.Get "Authorization" != "" then [oauthHandler] else [oidcHandler]
  | _ => []

/-- The routes `RegisterController` binds for a resource, given the handler chain of its
group. -/
def controllerRoutes {μ δ : Type} (name : String) (chain : List (HandlerFunc μ δ)) (dal : δ) :
    List (RouteInfo μ δ) :=
  [{ Method := "GET", Path := ["/" ++ name, ""],
     Handlers := chain ++ [.controller name dal .IndexHandler] },
   { Method := "POST", Path := ["/" ++ name, ""],
     Handlers := chain ++ [.controller name dal .CreateHandler] },
   { Method := "PUT", Path := ["/" ++ name, ""],
     Handlers := chain ++ [.controller name dal .ConditionalUpdateHandler] },
   { Method := "DELETE", Path := ["/" ++ name, ""],
     Handlers := chain ++ [.controller name dal .ConditionalDeleteHandler] },
   { Method := "GET", Path := ["/" ++ name, "/:id", ""],
     Handlers := chain ++ [.controller name dal .ShowHandler] },
   { Method := "PUT", Path := ["/" ++ name, "/:id", ""],
     Handlers := chain ++ [.controller name dal .UpdateHandler] },
   { Method := "DELETE", Path := ["/" ++ name, "/:id", ""],
     Handlers := chain ++ [.controller name dal .DeleteHandler] }]

/-- The scope check `RegisterController` attaches for a resource name: the handler
`auth.HEARTScopesHandler(name)` when the auth method is OIDC or HEART, nothing otherwise. -/
def scopeCheck {μ δ : Type} (method : AuthType) (name : String) : List (HandlerFunc μ δ) :=
  if method = .OIDC ∨ method = .HEART then [.HEARTScopesHandler name] else []

/-- The handler `oauthHandler` of `RegisterRoutes` (token introspection). -/
def oauthHandlerOf {μ δ : Type} (serverConfig : Config) : HandlerFunc μ δ :=
  .OAuthIntrospectionHandler serverConfig.Auth.ClientID serverConfig.Auth.ClientSecret
    serverConfig.Auth.IntrospectionURL

/-- The handler `oidcHandler` of `RegisterRoutes` (session check and redirect). -/
def oidcHandlerOf {μ δ : Type} (serverConfig : Config) : HandlerFunc μ δ :=
  .OIDCAuthenticationHandler
    { ClientID := serverConfig.Auth.ClientID, ClientSecret := serverConfig.Auth.ClientSecret,
      AuthURL := serverConfig.Auth.AuthorizationURL, TokenURL := serverConfig.Auth.TokenURL }

/-- The batch route of `RegisterRoutes`, given the handler chain of the engine. -/
def batchRoute {μ δ : Type} (chain : List (HandlerFunc μ δ))
    (config : List (String × List (HandlerFunc μ δ))) (dal : δ) : RouteInfo μ δ :=
  { Method := "POST", Path := ["/"],
    Handlers := chain ++ (middlewareOf config "Batch" ++ [.BatchPost dal]) }

/-- A stand-in for `heart.SetUpRoutes` that leaves the engine as it is. -/
def noSetUp {μ δ : Type} (_jwkPath _clientID _opURL _serverURL _sessionSecret : String)
    (e : Engine μ δ) : Engine μ δ := e

/-- A server configuration with the given auth method. -/
def sampleConfig (method : AuthType) : Config :=
  { Auth := { Method := method, SessionSecret := "secret", ClientID := "client",
              ClientSecret := "clientsecret", AuthorizationURL := "https://op/authorize",
              TokenURL := "https://op/token", IntrospectionURL := "https://op/introspect",
              UserInfoURL := "https://op/userinfo", JWKPath := "/jwk", OPURL := "https://op" },
    ServerURL := "http://fhir" }

/-! ## Sample data -/

/-- A request with the given query parameters. -/
def formRequest (form : List (String × String × List String)) : Request Unit :=
  { Vars := [], Form := form, Body := ({ Id := "", Patient := none, Fields := () }, none) }

/-- Three goals: two of patient "123", one of patient "456". -/
def sampleGoals : List (Record Unit) :=
  [{ Id := "0123456789abcdef00000001", Patient := some "123", Fields := () },
   { Id := "0123456789abcdef00000002", Patient := some "456", Fields := () },
   { Id := "0123456789abcdef00000003", Patient := some "123", Fields := () }]


/-- A collection of 150 documents with ids "0", "1", ... -/
def manyDocs : List (Record Unit) :=
  (List.range 150).map fun n => { Id := toString n, Patient := none, Fields := () }


/-- A record with empty fields. -/
def sampleRecord (id : String) (patient : Option String) : Record Unit :=
  { Id := id, Patient := patient, Fields := () }

/-- A request with the given route id and a body that does not decode. -/
def badBodyRequest (id : String) : Request Unit :=
  { Vars := [("id", id)], Form := [], Body := (sampleRecord "" none, some "unexpected EOF") }


/-- A request with the given route id and a body that decodes to an empty record. -/
def sampleRequest (id : String) : Request Unit :=
  { Vars := [("id", id)], Form := [], Body := ({ Id := "", Patient := none, Fields := () }, none) }

/-- An environment: a fixed new identifier, time and host name. -/
def sampleEnv : Env :=
  { NewObjectId := List.replicate 12 (171 : Fin 256), Now := 0, Hostname := ("fhir", none) }

/-! ## Hexadecimal encoding -/

theorem fromHexChar_hexDigit (d : Fin 16) : fromHexChar (hexDigit d.val) = some d.val := by
  revert d; decide

theorem hexDigit_lower (d : Fin 16) :
    (48 ≤ (hexDigit d.val).toNat ∧ (hexDigit d.val).toNat ≤ 57) ∨
      (97 ≤ (hexDigit d.val).toNat ∧ (hexDigit d.val).toNat ≤ 102) := by
  revert d; decide

/-- A character with a hexadecimal value is a one-byte character, its value is below 16,
and the digit of its value is the character in lower case. -/
theorem fromHexChar_spec {c : Char} {x : Nat} (h : fromHexChar c = some x) :
    x < 16 ∧ c.utf8Size = 1 ∧ hexDigit x = c.toLower ∧
      ((48 ≤ c.toNat ∧ c.toNat ≤ 57) ∨ (97 ≤ c.toNat ∧ c.toNat ≤ 102) → hexDigit x = c) := by
  have hc : c = Char.ofNat c.toNat := (Char.ofNat_toNat c).symm
  unfold fromHexChar at h
  simp only at h
  generalize c.toNat = n at hc h
  subst hc
  split_ifs at h with h1 h2 h3
  · obtain ⟨a, b⟩ := h1
    cases h
    interval_cases n <;> decide
  · obtain ⟨a, b⟩ := h2
    cases h
    interval_cases n <;> decide
  · obtain ⟨a, b⟩ := h3
    cases h
    interval_cases n <;> decide

theorem decodeChars_spec : ∀ (cs : List Char) (d : List Byte), decodeChars cs = some d →
    cs.length = 2 * d.length ∧ (∀ c ∈ cs, c.utf8Size = 1) ∧
      encodeChars d = cs.map Char.toLower ∧
      ((∀ c ∈ cs, (48 ≤ c.toNat ∧ c.toNat ≤ 57) ∨ (97 ≤ c.toNat ∧ c.toNat ≤ 102)) →
        encodeChars d = cs)
  | [], d, h => by
    simp [decodeChars] at h
    subst h
    simp [encodeChars]
  | [_], d, h => by simp [decodeChars] at h
  | a :: b :: rest, d, h => by
    unfold decodeChars at h
    cases ha : fromHexChar a with
    | none => simp [ha] at h
    | some x =>
      cases hb : fromHexChar b with
      | none => simp [ha, hb] at h
      | some y =>
        cases hr : decodeChars rest with
        | none => simp [ha, hb, hr] at h
        | some ds =>
          simp [ha, hb, hr] at h
          subst h
          obtain ⟨hx, hxs, hxl, hxe⟩ := fromHexChar_spec ha
          obtain ⟨hy, hys, hyl, hye⟩ := fromHexChar_spec hb
          obtain ⟨hlen, hsz, hlow, heq⟩ := decodeChars_spec rest ds hr
          have hv : (Fin.ofNat (x * 16 + y) : Fin 256).val = x * 16 + y := by
            simp [Fin.ofNat]; omega
          have h1 : (x * 16 + y) / 16 = x := by omega
          have h2 : (x * 16 + y) % 16 = y := by omega
          refine ⟨by simp [hlen]; omega, ?_, ?_, ?_⟩
          · intro c hc
            simp at hc
            rcases hc with rfl | rfl | hc
            · exact hxs
            · exact hys
            · exact hsz c hc
          · simp [encodeChars, hv, h1, h2, hxl, hyl, hlow]
          · intro hall
            have hra : ∀ c ∈ rest, (48 ≤ c.toNat ∧ c.toNat ≤ 57) ∨ (97 ≤ c.toNat ∧ c.toNat ≤ 102) :=
              fun c hc => hall c (by simp [hc])
            simp [encodeChars, hv, h1, h2, hxe (hall a (by simp)), hye (hall b (by simp)),
              heq hra]

theorem decodeChars_encodeChars : ∀ bs : List Byte, decodeChars (encodeChars bs) = some bs
  | [] => by simp [encodeChars, decodeChars]
  | v :: rest => by
    have h1 := fromHexChar_hexDigit ⟨v.val / 16, by omega⟩
    have h2 := fromHexChar_hexDigit ⟨v.val % 16, by omega⟩
    simp only at h1 h2
    have hv : (Fin.ofNat (v.val / 16 * 16 + v.val % 16) : Fin 256) = v := by
      apply Fin.ext
      simp [Fin.ofNat]
      omega
    simp [encodeChars, decodeChars, h1, h2, decodeChars_encodeChars rest, hv]

theorem encodeChars_length : ∀ bs : List Byte, (encodeChars bs).length = 2 * bs.length
  | [] => by simp [encodeChars]
  | v :: rest => by simp [encodeChars, encodeChars_length rest]; omega

theorem encodeChars_lower : ∀ (bs : List Byte) (c : Char), c ∈ encodeChars bs →
    (48 ≤ c.toNat ∧ c.toNat ≤ 57) ∨ (97 ≤ c.toNat ∧ c.toNat ≤ 102)
  | [], c, h => by simp [encodeChars] at h
  | v :: rest, c, h => by
    simp [encodeChars] at h
    rcases h with rfl | rfl | h
    · exact hexDigit_lower ⟨v.val / 16, by omega⟩
    · exact hexDigit_lower ⟨v.val % 16, by omega⟩
    · exact encodeChars_lower rest c h

theorem utf8Len_eq_length : ∀ cs : List Char, (∀ c ∈ cs, c.utf8Size = 1) →
    String.utf8Len cs = cs.length
  | [], _ => rfl
  | c :: cs, h => by
    simp [h c (by simp), utf8Len_eq_length cs (fun x hx => h x (by simp [hx]))]

theorem len_of_decodeChars {s : String} {d : List Byte} (h : decodeChars s.data = some d) :
    len s = 2 * d.length := by
  obtain ⟨hlen, hsz, _, _⟩ := decodeChars_spec s.data d h
  cases s with
  | mk cs =>
    simp only [len, String.utf8ByteSize_mk]
    rw [utf8Len_eq_length cs hsz, hlen]

/-- Under the guard `bson.IsObjectIdHex(s)` the call `bson.ObjectIdHex(s)` does not panic:
it returns the twelve decoded bytes. -/
theorem ObjectIdHex_isSome {s : String} (h : IsObjectIdHex s = true) :
    ∃ d, ObjectIdHex s = some d ∧ d.length = 12 ∧ decodeChars s.data = some d := by
  unfold IsObjectIdHex at h
  split_ifs at h with h24
  cases hd : decodeChars s.data with
  | none => simp [hd] at h
  | some d =>
    have hl := len_of_decodeChars hd
    have h12 : d.length = 12 := by
      simp at h24
      omega
    exact ⟨d, by simp [ObjectIdHex, hd, h12], h12, rfl⟩

/-- The hex form of a decoded identifier is the lower-case form of the input. -/
theorem Hex_of_decodeChars {s : String} {d : ObjectId} (h : decodeChars s.data = some d) :
    d.Hex = lowerCase s ∧
      ((∀ c ∈ s.data, (48 ≤ c.toNat ∧ c.toNat ≤ 57) ∨ (97 ≤ c.toNat ∧ c.toNat ≤ 102)) →
        d.Hex = s) := by
  obtain ⟨_, _, hlow, heq⟩ := decodeChars_spec s.data d h
  refine ⟨by simp [ObjectId.Hex, lowerCase, hlow], fun hall => ?_⟩
  simp [ObjectId.Hex, heq hall]

/-- The hex form of a twelve-byte identifier is a valid route id, it is in lower case, and
it decodes to the identifier. -/
theorem Hex_valid {i : ObjectId} (h : i.length = 12) :
    IsObjectIdHex i.Hex = true ∧ ObjectIdHex i.Hex = some i ∧ IsLowerHex24 i.Hex := by
  have hd : decodeChars i.Hex.data = some i := by
    simp [ObjectId.Hex, decodeChars_encodeChars]
  have hl := len_of_decodeChars hd
  refine ⟨?_, ?_, ?_, ?_⟩
  · simp [IsObjectIdHex, hd, hl, h]
  · simp [ObjectIdHex, hd, h]
  · simp [ObjectId.Hex, encodeChars_length, h]
  · intro c hc
    exact encodeChars_lower i c (by simpa [ObjectId.Hex] using hc)

/-- The identifier the handlers use for a valid route id, in hex form, is the lower-case
form of the route id. -/
theorem routeId_Hex {α : Type} (r : Request α) (h : IsObjectIdHex (r.Var "id") = true) :
    (routeId r).Hex = lowerCase (r.Var "id") := by
  obtain ⟨d, hd, _, hdec⟩ := ObjectIdHex_isSome h
  simp [routeId, h, hd, (Hex_of_decodeChars hdec).1]

/-- The identifier the handlers use for a lower-case valid route id, in hex form, is the
route id. -/
theorem routeId_Hex_lower {α : Type} (r : Request α) (h : IsObjectIdHex (r.Var "id") = true)
    (hlow : IsLowerHex24 (r.Var "id")) : (routeId r).Hex = r.Var "id" := by
  obtain ⟨d, hd, _, hdec⟩ := ObjectIdHex_isSome h
  simp [routeId, h, hd, (Hex_of_decodeChars hdec).2 hlow.2]

/-- The identifier the handlers use for an invalid route id is the zero value, whose hex
form is the empty string. -/
theorem routeId_Hex_invalid {α : Type} (r : Request α) (h : IsObjectIdHex (r.Var "id") = false) :
    (routeId r).Hex = "" := by
  simp [routeId, h, ObjectId.zero, ObjectId.Hex, encodeChars]

/-! ## Headers, context, response writer -/

theorem lookup_filter_ne {β : Type} (k k2 : String) (hne : k2 ≠ k) :
    ∀ l : List (String × β), List.lookup k2 (l.filter (fun kv => kv.1 != k)) = List.lookup k2 l
  | [] => rfl
  | x :: xs => by
    have ih := lookup_filter_ne k k2 hne xs
    by_cases hx : x.1 = k
    · have hk : (k2 == x.1) = false := by simpa [hx] using hne
      have hf : (x.1 != k) = false := by simp [hx]
      rw [List.filter_cons, hf]
      simp only [Bool.false_eq_true, if_false]
      rw [ih]
      cases x with
      | mk a b => simp only [List.lookup, hk]
    · have hf : (x.1 != k) = true := by simpa using hx
      rw [List.filter_cons, hf]
      simp only [if_true]
      cases x with
      | mk a b =>
        by_cases hk : k2 = a
        · subst hk; simp [List.lookup]
        · have hkb : (k2 == a) = false := by simpa using hk
          simp only [List.lookup, hkb]
          exact ih

theorem Header.Values_Set_ne (h : Header) (k k2 v : String) (hne : k2 ≠ k) :
    (h.Set k v).Values k2 = h.Values k2 := by
  have hb : (k2 == k) = false := by simpa using hne
  simp only [Header.Set, Header.Values, List.lookup, hb, lookup_filter_ne k k2 hne]

theorem Header.Values_Add_same (h : Header) (k v : String) :
    (h.Add k v).Values k = h.Values k ++ [v] := by
  simp [Header.Add, Header.Values, List.lookup]

theorem Header.Values_Set_same (h : Header) (k v : String) :
    (h.Set k v).Values k = [v] := by
  simp [Header.Set, Header.Values, List.lookup]

theorem Context.Get_Set_same {α : Type} (ctx : Context α) (k : String) (v : Value α) :
    (ctx.Set k v).Get k = v := by
  simp [Context.Set, Context.Get, List.lookup]

theorem Context.Get_Set_ne {α : Type} (ctx : Context α) (k k2 : String) (v : Value α)
    (hne : k2 ≠ k) : (ctx.Set k v).Get k2 = ctx.Get k2 := by
  have hb : (k2 == k) = false := by simpa using hne
  simp only [Context.Set, Context.Get, List.lookup, hb, lookup_filter_ne k k2 hne]

theorem ResponseWriter.WriteHeader_header {α : Type} (w : ResponseWriter α) (code : Nat) :
    (w.WriteHeader code).header = w.header := by
  unfold ResponseWriter.WriteHeader
  split <;> rfl

theorem ResponseWriter.Error_header {α : Type} (w : ResponseWriter α) (m : String) (c : Nat) :
    (w.Error m c).header =
      (w.header.Set "Content-Type" "text/plain; charset=utf-8").Set
        "X-Content-Type-Options" "nosniff" := by
  simp [ResponseWriter.Error, ResponseWriter.Write, ResponseWriter.WriteHeader_header]

theorem ResponseWriter.Error_Location {α : Type} (w : ResponseWriter α) (m : String) (c : Nat) :
    (w.Error m c).header.Values "Location" = w.header.Values "Location" := by
  rw [ResponseWriter.Error_header, Header.Values_Set_ne _ _ _ _ (by decide),
    Header.Values_Set_ne _ _ _ _ (by decide)]

theorem ResponseWriter.statusWritten_WriteHeader {α : Type} (w : ResponseWriter α) (code : Nat) :
    (w.WriteHeader code).statusWritten = some (w.statusWritten.getD code) := by
  unfold ResponseWriter.WriteHeader ResponseWriter.statusWritten
  cases h : w.wroteHeader <;> simp [h]

theorem ResponseWriter.statusWritten_Write {α : Type} (w : ResponseWriter α) (c : Chunk α) :
    (w.Write c).statusWritten = some (w.statusWritten.getD 200) := by
  have h := ResponseWriter.statusWritten_WriteHeader w 200
  simpa [ResponseWriter.Write, ResponseWriter.statusWritten] using h

theorem ResponseWriter.statusWritten_Error {α : Type} (w : ResponseWriter α) (m : String)
    (c : Nat) : (w.Error m c).statusWritten = some (w.statusWritten.getD c) := by
  unfold ResponseWriter.Error
  simp only [ResponseWriter.statusWritten_Write, ResponseWriter.statusWritten_WriteHeader]
  simp [ResponseWriter.statusWritten]

/-! ## Projections of the state operations -/

@[simp] theorem State.Error_calls {σ α : Type} (s : State σ α) (m : String) (c : Nat) :
    (s.Error m c).calls = s.calls := rfl

@[simp] theorem State.Error_db {σ α : Type} (s : State σ α) (m : String) (c : Nat) :
    (s.Error m c).db = s.db := rfl

@[simp] theorem State.Error_ctx {σ α : Type} (s : State σ α) (m : String) (c : Nat) :
    (s.Error m c).ctx = s.ctx := rfl

@[simp] theorem State.Error_rw {σ α : Type} (s : State σ α) (m : String) (c : Nat) :
    (s.Error m c).rw = s.rw.Error m c := rfl

@[simp] theorem State.ErrorIf_calls {σ α : Type} (s : State σ α) (e : Option String) :
    (s.ErrorIf e).calls = s.calls := by cases e <;> rfl

@[simp] theorem State.ErrorIf_db {σ α : Type} (s : State σ α) (e : Option String) :
    (s.ErrorIf e).db = s.db := by cases e <;> rfl

@[simp] theorem State.ErrorIf_ctx {σ α : Type} (s : State σ α) (e : Option String) :
    (s.ErrorIf e).ctx = s.ctx := by cases e <;> rfl

@[simp] theorem State.ErrorIf_none {σ α : Type} (s : State σ α) :
    s.ErrorIf none = s := rfl

@[simp] theorem State.ErrorIf_some {σ α : Type} (s : State σ α) (e : String) :
    s.ErrorIf (some e) = s.Error e 500 := rfl

@[simp] theorem State.checkId_calls {σ α : Type} (s : State σ α) (r : Request α) :
    (s.checkId r).calls = s.calls := by unfold State.checkId; split <;> rfl

@[simp] theorem State.checkId_db {σ α : Type} (s : State σ α) (r : Request α) :
    (s.checkId r).db = s.db := by unfold State.checkId; split <;> rfl

@[simp] theorem State.checkId_ctx {σ α : Type} (s : State σ α) (r : Request α) :
    (s.checkId r).ctx = s.ctx := by unfold State.checkId; split <;> rfl

@[simp] theorem State.HeaderSet_calls {σ α : Type} (s : State σ α) (k v : String) :
    (s.HeaderSet k v).calls = s.calls := rfl

@[simp] theorem State.HeaderSet_db {σ α : Type} (s : State σ α) (k v : String) :
    (s.HeaderSet k v).db = s.db := rfl

@[simp] theorem State.HeaderSet_ctx {σ α : Type} (s : State σ α) (k v : String) :
    (s.HeaderSet k v).ctx = s.ctx := rfl

@[simp] theorem State.HeaderAdd_calls {σ α : Type} (s : State σ α) (k v : String) :
    (s.HeaderAdd k v).calls = s.calls := rfl

@[simp] theorem State.HeaderAdd_db {σ α : Type} (s : State σ α) (k v : String) :
    (s.HeaderAdd k v).db = s.db := rfl

@[simp] theorem State.HeaderAdd_ctx {σ α : Type} (s : State σ α) (k v : String) :
    (s.HeaderAdd k v).ctx = s.ctx := rfl

@[simp] theorem State.Encode_calls {σ α : Type} (s : State σ α) (v : Value α) :
    (s.Encode v).calls = s.calls := rfl

@[simp] theorem State.Encode_db {σ α : Type} (s : State σ α) (v : Value α) :
    (s.Encode v).db = s.db := rfl

@[simp] theorem State.Encode_ctx {σ α : Type} (s : State σ α) (v : Value α) :
    (s.Encode v).ctx = s.ctx := rfl

@[simp] theorem State.ContextSet_calls {σ α : Type} (s : State σ α) (k : String) (v : Value α) :
    (s.ContextSet k v).calls = s.calls := rfl

@[simp] theorem State.ContextSet_db {σ α : Type} (s : State σ α) (k : String) (v : Value α) :
    (s.ContextSet k v).db = s.db := rfl

@[simp] theorem State.ContextSet_rw {σ α : Type} (s : State σ α) (k : String) (v : Value α) :
    (s.ContextSet k v).rw = s.rw := rfl

@[simp] theorem State.ContextSet_ctx {σ α : Type} (s : State σ α) (k : String) (v : Value α) :
    (s.ContextSet k v).ctx = s.ctx.Set k v := rfl

@[simp] theorem State.call_calls {σ α : Type} (s : State σ α) (c : StoreCall α) :
    (s.call c).calls = s.calls ++ [c] := rfl

@[simp] theorem State.call_db {σ α : Type} (s : State σ α) (c : StoreCall α) :
    (s.call c).db = s.db := rfl

@[simp] theorem State.call_ctx {σ α : Type} (s : State σ α) (c : StoreCall α) :
    (s.call c).ctx = s.ctx := rfl

@[simp] theorem State.call_rw {σ α : Type} (s : State σ α) (c : StoreCall α) :
    (s.call c).rw = s.rw := rfl

@[simp] theorem State.setDb_calls {σ α : Type} (s : State σ α) (db : σ) :
    (s.setDb db).calls = s.calls := rfl

@[simp] theorem State.setDb_db {σ α : Type} (s : State σ α) (db : σ) :
    (s.setDb db).db = db := rfl

@[simp] theorem State.setDb_ctx {σ α : Type} (s : State σ α) (db : σ) :
    (s.setDb db).ctx = s.ctx := rfl

@[simp] theorem State.setDb_rw {σ α : Type} (s : State σ α) (db : σ) :
    (s.setDb db).rw = s.rw := rfl

@[simp] theorem State.HeaderSet_rw_status {σ α : Type} (s : State σ α) (k v : String) :
    (s.HeaderSet k v).rw.statusWritten = s.rw.statusWritten := rfl

@[simp] theorem State.HeaderAdd_rw_status {σ α : Type} (s : State σ α) (k v : String) :
    (s.HeaderAdd k v).rw.statusWritten = s.rw.statusWritten := rfl

@[simp] theorem State.Encode_rw_status {σ α : Type} (s : State σ α) (v : Value α) :
    (s.Encode v).rw.statusWritten = some (s.rw.statusWritten.getD 200) :=
  ResponseWriter.statusWritten_Write s.rw (.json v)

@[simp] theorem State.Error_rw_status {σ α : Type} (s : State σ α) (m : String) (c : Nat) :
    (s.Error m c).rw.statusWritten = some (s.rw.statusWritten.getD c) :=
  ResponseWriter.statusWritten_Error s.rw m c

theorem State.ErrorIf_Location {σ α : Type} (s : State σ α) (e : Option String) :
    (s.ErrorIf e).rw.header.Values "Location" = s.rw.header.Values "Location" := by
  cases e with
  | none => rfl
  | some m => exact ResponseWriter.Error_Location s.rw m 500

/-! ## The map model of a collection -/

theorem docStore_Insert_ok {α : Type} (docs : List (Record α)) (d : Record α)
    (h : ((docStore α).Insert docs d).2 = none) :
    ((docStore α).Insert docs d).1 = docs ++ [d] ∧ docs.any (fun x => x.Id == d.Id) = false := by
  simp only [docStore] at h ⊢
  cases hany : docs.any (fun x => x.Id == d.Id) with
  | true => simp [hany] at h
  | false => simp

theorem docStore_One_appended {α : Type} (docs : List (Record α)) (d : Record α)
    (h : docs.any (fun x => x.Id == d.Id) = false) :
    (docStore α).One (docs ++ [d]) (.byId d.Id) = .ok d := by
  have hnone : docs.find? (Selector.byId d.Id).matches = none := by
    rw [List.find?_eq_none]
    intro x hx
    have := List.any_eq_false.mp h x hx
    simpa [Selector.matches] using this
  simp [docStore, List.find?_append, hnone, Selector.matches]

theorem routeId_of_Hex {α : Type} (r : Request α) (i : ObjectId) (h12 : i.length = 12)
    (hid : r.Var "id" = i.Hex) : IsObjectIdHex (r.Var "id") = true ∧ routeId r = i := by
  obtain ⟨hv, hd, _⟩ := Hex_valid h12
  rw [hid]
  refine ⟨hv, ?_⟩
  simp [routeId, hid, hv, hd]

theorem CreateHandler_db {σ α : Type} (name loc : String) (C : Collection σ α) (env : Env)
    (r : Request α) (s : State σ α) :
    (CreateHandler name loc C env r s).db =
      (C.Insert s.db { r.Body.1 with Id := env.NewObjectId.Hex }).1 := by
  simp [CreateHandler]

theorem CreateHandler_calls {σ α : Type} (name loc : String) (C : Collection σ α) (env : Env)
    (r : Request α) (s : State σ α) :
    (CreateHandler name loc C env r s).calls =
      s.calls ++ [.Insert { r.Body.1 with Id := env.NewObjectId.Hex }] := by
  simp [CreateHandler]

theorem CreateHandler_Location {σ α : Type} (name loc : String) (C : Collection σ α) (env : Env)
    (r : Request α) (s : State σ α) :
    (CreateHandler name loc C env r s).rw.header.Values "Location" =
      s.rw.header.Values "Location" ++
        ["http://" ++ env.Hostname.1 ++ loc ++ env.NewObjectId.Hex] := by
  simp only [CreateHandler, State.HeaderAdd, Header.Values_Add_same, State.ErrorIf_Location,
    State.ContextSet_rw, State.call_rw, State.setDb_rw]

theorem routeId_valid {α : Type} (r : Request α) (hv : IsObjectIdHex (r.Var "id") = true) :
    (ObjectIdHex (r.Var "id")).getD ObjectId.zero = routeId r := by
  simp [routeId, hv]

theorem ResourceShowHandler_found {σ α : Type} (name : String) (C : Collection σ α)
    (r : Request α) (ctx : Context α) (db : σ) (result : Record α)
    (hv : IsObjectIdHex (r.Var "id") = true)
    (hone : C.One db (.byId (routeId r).Hex) = .ok result) :
    (ResourceShowHandler name C r (State.start ctx db)).rw.body = [.json (.record result)] ∧
      (ResourceShowHandler name C r (State.start ctx db)).rw.statusWritten = some 200 := by
  have hdb : ((State.start ctx db).checkId r).db = db := by simp [State.start]
  simp only [ResourceShowHandler, hdb, hone]
  simp [State.checkId, hv, State.start, State.Encode, State.HeaderSet, State.ContextSet,
    State.call, ResponseWriter.Write, ResponseWriter.WriteHeader, ResponseWriter.new,
    ResponseWriter.statusWritten]

theorem EntryShowHandler_found {σ α : Type} (name : String) (C : Collection σ α)
    (r : Request α) (ctx : Context α) (db : σ) (result : Record α)
    (hname : name ≠ "Resource")
    (hv : IsObjectIdHex (r.Var "id") = true)
    (hone : C.One db (.byId (routeId r).Hex) = .ok result) :
    (EntryShowHandler name C r (State.start ctx db)).rw.body = [.json (.record result)] ∧
      (EntryShowHandler name C r (State.start ctx db)).rw.statusWritten = some 200 := by
  have hdb : ((State.start ctx db).ContextSet "Action" (.str "read")).db = db := by
    simp [State.start]
  simp only [EntryShowHandler, LoadResource, hv, if_true, routeId_valid r hv, hdb, hone]
  simp [State.start, State.Encode, State.HeaderSet, State.ContextSet,
    State.call, ResponseWriter.Write, ResponseWriter.WriteHeader, ResponseWriter.new,
    ResponseWriter.statusWritten, Context.Get_Set_ne _ _ _ _ hname, Context.Get_Set_same]

theorem ShowHandler_found {σ α : Type} (res : Resource) (C : Collection σ α)
    (r : Request α) (ctx : Context α) (db : σ) (result : Record α)
    (hv : IsObjectIdHex (r.Var "id") = true)
    (hone : C.One db (.byId (routeId r).Hex) = .ok result) :
    (ShowHandler res C r (State.start ctx db)).rw.body = [.json (.record result)] ∧
      (ShowHandler res C r (State.start ctx db)).rw.statusWritten = some 200 := by
  cases res
  · exact EntryShowHandler_found "Goal" C r ctx db result (by decide) hv hone
  · exact EntryShowHandler_found "ProcessRequest" C r ctx db result (by decide) hv hone
  · exact ResourceShowHandler_found "Encounter" C r ctx db result hv hone
  · exact ResourceShowHandler_found "Location" C r ctx db result hv hone
  · exact ResourceShowHandler_found "Supply" C r ctx db result hv hone

theorem Resource.loc_eq (res : Resource) (host hex : String) :
    "http://" ++ host ++ res.loc ++ hex =
      "http://" ++ host ++ ":" ++ res.port ++ "/" ++ res.name ++ "/" ++ hex := by
  have h : res.loc = ":" ++ (res.port ++ ("/" ++ (res.name ++ "/"))) := by
    cases res <;> decide
  rw [h]
  simp only [String.append_assoc]

theorem Resource.name_ne (res : Resource) : res.name ≠ "Resource" ∧ res.name ≠ "Action" := by
  cases res <;> decide

theorem UpdateHandler_calls {σ α : Type} (name : String) (C : Collection σ α)
    (r : Request α) (s : State σ α) :
    (UpdateHandler name C r s).calls = s.calls ++
      [.Update (.byId (routeId r).Hex) { r.Body.1 with Id := (routeId r).Hex }] := by
  simp [UpdateHandler]

theorem UpdateHandler_ctx {σ α : Type} (name : String) (C : Collection σ α)
    (r : Request α) (s : State σ α) (h1 : name ≠ "Resource") (h2 : name ≠ "Action") :
    (UpdateHandler name C r s).ctx.Get name =
      .record { r.Body.1 with Id := (routeId r).Hex } := by
  simp only [UpdateHandler, State.ContextSet_ctx]
  rw [Context.Get_Set_ne _ _ _ _ h2, Context.Get_Set_ne _ _ _ _ h1, Context.Get_Set_same]

theorem CreateHandler_ctx {σ α : Type} (name loc : String) (C : Collection σ α) (env : Env)
    (r : Request α) (s : State σ α) (h1 : name ≠ "Resource") (h2 : name ≠ "Action") :
    (CreateHandler name loc C env r s).ctx.Get name =
      .record { r.Body.1 with Id := env.NewObjectId.Hex } := by
  simp only [CreateHandler, State.HeaderAdd_ctx, State.ErrorIf_ctx, State.ContextSet_ctx]
  rw [Context.Get_Set_ne _ _ _ _ h2, Context.Get_Set_ne _ _ _ _ h1, Context.Get_Set_same]

/-! ## The first status written -/

@[simp] theorem State.start_status {σ α : Type} (ctx : Context α) (db : σ) :
    (State.start ctx db : State σ α).rw.statusWritten = none := rfl

@[simp] theorem State.start_db {σ α : Type} (ctx : Context α) (db : σ) :
    (State.start ctx db : State σ α).db = db := rfl

@[simp] theorem State.start_calls {σ α : Type} (ctx : Context α) (db : σ) :
    (State.start ctx db : State σ α).calls = [] := rfl

@[simp] theorem State.start_ctx {σ α : Type} (ctx : Context α) (db : σ) :
    (State.start ctx db : State σ α).ctx = ctx := rfl

theorem State.ErrorIf_status {σ α : Type} (s : State σ α) (e : Option String) :
    (s.ErrorIf e).rw.statusWritten =
      if e.isSome then some (s.rw.statusWritten.getD 500) else s.rw.statusWritten := by
  cases e with
  | none => rfl
  | some m => simpa using ResponseWriter.statusWritten_Error s.rw m 500

theorem State.checkId_status {σ α : Type} (s : State σ α) (r : Request α) :
    (s.checkId r).rw.statusWritten =
      if IsObjectIdHex (r.Var "id") then s.rw.statusWritten
      else some (s.rw.statusWritten.getD 400) := by
  unfold State.checkId
  split
  · rfl
  · exact ResponseWriter.statusWritten_Error s.rw _ 400

theorem UpdateHandler_status {σ α : Type} (name : String) (C : Collection σ α)
    (r : Request α) (ctx : Context α) (db : σ) :
    (UpdateHandler name C r (State.start ctx db)).rw.statusWritten =
      if IsObjectIdHex (r.Var "id") then
        (if r.Body.2.isSome then some 500
          else if (C.Update db (.byId (routeId r).Hex)
              { r.Body.1 with Id := (routeId r).Hex }).2.isSome then some 500
          else none)
      else some 400 := by
  simp only [UpdateHandler, State.ContextSet_rw, State.ErrorIf_status, State.call_rw,
    State.setDb_rw, State.checkId_status, State.start_status, State.ErrorIf_db,
    State.checkId_db, State.start_db]
  by_cases hv : IsObjectIdHex (r.Var "id") = true <;>
    cases r.Body.2 <;>
    cases (C.Update db (.byId (routeId r).Hex) { r.Body.1 with Id := (routeId r).Hex }).2 <;>
    simp [hv]

theorem DeleteHandler_status {σ α : Type} (name : String) (C : Collection σ α)
    (r : Request α) (ctx : Context α) (db : σ) :
    (DeleteHandler name C r (State.start ctx db)).rw.statusWritten =
      if IsObjectIdHex (r.Var "id") then
        (if (C.Remove db (.byId (routeId r).Hex)).2.isSome then some 500 else none)
      else some 400 := by
  simp only [DeleteHandler, State.checkId_db, State.start_db]
  by_cases hv : IsObjectIdHex (r.Var "id") = true <;>
    cases (C.Remove db (.byId (routeId r).Hex)).2 <;>
    simp [hv, State.checkId_status, ResponseWriter.statusWritten_Error]

theorem CreateHandler_status {σ α : Type} (name loc : String) (C : Collection σ α) (env : Env)
    (r : Request α) (ctx : Context α) (db : σ) :
    (CreateHandler name loc C env r (State.start ctx db)).rw.statusWritten =
      if r.Body.2.isSome then some 500
      else if (C.Insert db { r.Body.1 with Id := env.NewObjectId.Hex }).2.isSome then some 500
      else if env.Hostname.2.isSome then some 500
      else none := by
  simp only [CreateHandler, State.HeaderAdd_rw_status, State.ContextSet_rw,
    State.ErrorIf_status, State.call_rw, State.setDb_rw, State.start_status, State.ErrorIf_db,
    State.start_db]
  cases r.Body.2 <;>
    cases (C.Insert db { r.Body.1 with Id := env.NewObjectId.Hex }).2 <;>
    cases env.Hostname.2 <;> simp

theorem ResourceShowHandler_status {σ α : Type} (name : String) (C : Collection σ α)
    (r : Request α) (ctx : Context α) (db : σ) :
    (ResourceShowHandler name C r (State.start ctx db)).rw.statusWritten =
      if IsObjectIdHex (r.Var "id") then
        (match C.One db (.byId (routeId r).Hex) with
          | .error _ => some 500
          | .ok _ => some 200)
      else some 400 := by
  simp only [ResourceShowHandler, State.checkId_db, State.start_db]
  by_cases hv : IsObjectIdHex (r.Var "id") = true <;>
    cases C.One db (.byId (routeId r).Hex) <;>
    simp [hv, State.checkId_status, ResponseWriter.statusWritten_Error]

theorem EntryShowHandler_status {σ α : Type} (name : String) (C : Collection σ α)
    (r : Request α) (ctx : Context α) (db : σ) :
    (EntryShowHandler name C r (State.start ctx db)).rw.statusWritten =
      if IsObjectIdHex (r.Var "id") then
        (match C.One db (.byId (routeId r).Hex) with
          | .error _ => some 500
          | .ok _ => some 200)
      else some 500 := by
  simp only [EntryShowHandler, LoadResource]
  by_cases hv : IsObjectIdHex (r.Var "id") = true
  · simp only [hv, if_true, routeId_valid r hv, State.ContextSet_db, State.start_db]
    cases C.One db (.byId (routeId r).Hex) <;>
      simp [State.ErrorIf_status, ResponseWriter.statusWritten_Error]
  · simp [hv, State.ErrorIf_status, ResponseWriter.statusWritten_Error]

theorem entryIndexTail_status {σ α : Type} (name : String) (env : Env)
    (result : List (Record α)) (s : State σ α) :
    (entryIndexTail name env result s).rw.statusWritten
      = some (s.rw.statusWritten.getD 200) := by
  simp [entryIndexTail]

theorem IndexHandler_status {σ α : Type} (res : Resource) (C : Collection σ α) (env : Env)
    (r : Request α) (ctx : Context α) (db : σ) (hform : r.Form = []) :
    (IndexHandler res C env r (State.start ctx db)).rw.statusWritten =
      if (C.All db .all (some 100)).2.isSome then some 500 else some 200 := by
  cases res <;>
    cases h : (C.All db .all (some 100)).2 <;>
    simp [IndexHandler, GoalIndexHandler, ProcessRequestIndexHandler, ResourceIndexHandler,
      hform, entryIndexTail_status, State.ErrorIf_status, ResponseWriter.statusWritten_Error, h]

/-! ## Index without query parameters -/

theorem State.Encode_body_getLast {σ α : Type} (s : State σ α) (v : Value α) :
    (s.Encode v).rw.body.getLast? = some (.json v) := by
  simp [State.Encode, ResponseWriter.Write]

theorem docStore_All_limit {α : Type} (db : List (Record α)) (sel : Selector) (n : Nat) :
    ((docStore α).All db sel (some n)).1.length ≤ n := by
  simp only [docStore, List.length_take]
  exact Nat.min_le_left _ _

theorem IndexHandler_calls {σ α : Type} (res : Resource) (C : Collection σ α) (env : Env)
    (r : Request α) (s : State σ α) (hform : r.Form = []) :
    (IndexHandler res C env r s).calls = s.calls ++ [.All .all (some 100)] := by
  cases res <;>
    simp [IndexHandler, GoalIndexHandler, ProcessRequestIndexHandler, ResourceIndexHandler,
      entryIndexTail, hform]

theorem IndexHandler_bundle {σ α : Type} (res : Resource) (C : Collection σ α) (env : Env)
    (r : Request α) (s : State σ α) (hform : r.Form = []) :
    ∃ v, (IndexHandler res C env r s).rw.body.getLast? = some (.json v) ∧
      v.entryCount = (C.All s.db .all (some 100)).1.length ∧
      v.totalResults = some v.entryCount := by
  cases res
  · exact ⟨_, by
      simp only [IndexHandler, GoalIndexHandler, hform, List.length_nil, if_true, entryIndexTail]
      exact State.Encode_body_getLast _ _, by simp [Value.entryCount, entryList],
      by simp [Value.entryCount, Value.totalResults, entryList]⟩
  · exact ⟨_, by
      simp only [IndexHandler, ProcessRequestIndexHandler, entryIndexTail]
      exact State.Encode_body_getLast _ _, by simp [Value.entryCount, entryList],
      by simp [Value.entryCount, Value.totalResults, entryList]⟩
  · exact ⟨_, by
      simp only [IndexHandler, ResourceIndexHandler]
      exact State.Encode_body_getLast _ _, by simp [Value.entryCount],
      by simp [Value.entryCount, Value.totalResults]⟩
  · exact ⟨_, by
      simp only [IndexHandler, ResourceIndexHandler]
      exact State.Encode_body_getLast _ _, by simp [Value.entryCount],
      by simp [Value.entryCount, Value.totalResults]⟩
  · exact ⟨_, by
      simp only [IndexHandler, ResourceIndexHandler]
      exact State.Encode_body_getLast _ _, by simp [Value.entryCount],
      by simp [Value.entryCount, Value.totalResults]⟩

/-! ## The query parameters of the Goal index -/

theorem splitChars_ne_nil (sep : Char) : ∀ cs : List Char, splitChars sep cs ≠ []
  | [] => by simp [splitChars]
  | c :: cs => by
    unfold splitChars
    split_ifs
    · simp
    · split <;> simp

theorem splitChars_head_iff (sep : Char) : ∀ (cs p : List Char), sep ∉ p →
    (((splitChars sep cs).length > 1 ∧ (splitChars sep cs).head? = some p) ↔
      ∃ m, cs = p ++ sep :: m)
  | [], p, _ => by
    simp [splitChars]
  | c :: cs, p, hp => by
    by_cases hc : c = sep
    · subst hc
      have hne := splitChars_ne_nil c cs
      have hlen : 0 < (splitChars c cs).length := List.length_pos.mpr hne
      cases p with
      | nil => simp [splitChars, hlen]
      | cons a p2 =>
        have ha : a ≠ c := fun h => hp (by simp [h])
        constructor
        · rintro ⟨_, h⟩
          simp [splitChars] at h
        · rintro ⟨m, hm⟩
          simp only [List.cons_append, List.cons.injEq] at hm
          exact absurd hm.1.symm ha
    · have hne := splitChars_ne_nil sep cs
      cases hq : splitChars sep cs with
      | nil => exact absurd hq hne
      | cons q qs =>
        cases p with
        | nil =>
          simp [splitChars, hc, hq]
        | cons a p2 =>
          have hp2 : sep ∉ p2 := fun h => hp (by simp [h])
          have ih := splitChars_head_iff sep cs p2 hp2
          rw [hq] at ih
          simp only [splitChars, hc, if_false, hq, List.length_cons, List.head?_cons,
            Option.some.injEq, List.cons.injEq, List.cons_append] at ih ⊢
          constructor
          · rintro ⟨h1, h2, h3⟩
            obtain ⟨m, hm⟩ := ih.mp ⟨h1, h3⟩
            exact ⟨m, h2, hm⟩
          · rintro ⟨m, h2, hm⟩
            obtain ⟨h1, h3⟩ := ih.mpr ⟨m, hm⟩
            exact ⟨h1, h2, h3⟩

/-- The test of the loop accepts exactly the keys of the form `patient:<modifier>`. -/
theorem isPatientKey_iff (key : String) : isPatientKey key = true ↔ IsPatientParam key := by
  have hchars := splitChars_head_iff ':' key.data "patient".data (by decide)
  have hhead : (Split key).head? = some "patient" ↔
      (splitChars ':' key.data).head? = some "patient".data := by
    simp only [Split, List.head?_map]
    cases (splitChars ':' key.data).head? with
    | none => simp
    | some q =>
      simp only [Option.map_some', Option.some.injEq]
      constructor
      · intro h
        exact congrArg String.data h
      · intro h
        exact congrArg String.mk h
  have hlen : (Split key).length = (splitChars ':' key.data).length := by simp [Split]
  simp only [isPatientKey, decide_eq_true_eq, hhead, hlen, hchars, IsPatientParam]
  constructor
  · rintro ⟨m, hm⟩
    refine ⟨String.mk m, ?_⟩
    apply String.ext
    rw [hm, String.data_append]
    simp
  · rintro ⟨modifier, hm⟩
    refine ⟨modifier.data, ?_⟩
    rw [hm, String.data_append]
    simp

theorem goalIndexStep_eq {σ α : Type} (C : Collection σ α)
    (acc : List (Record α) × State σ α) (kv : String × String × List String) :
    goalIndexStep C acc kv =
      if isPatientKey kv.1 then
        ((C.All acc.2.db (.byPatient kv.2.1) none).1,
          (acc.2.call (.All (.byPatient kv.2.1) none)).ErrorIf
            (C.All acc.2.db (.byPatient kv.2.1) none).2)
      else acc := by
  unfold goalIndexStep isPatientKey
  by_cases h : (Split kv.1).length > 1 ∧ (Split kv.1).head? = some "patient"
  · simp only [h, and_self, if_true, decide_True]
  · simp only [h, if_false, decide_False, Bool.false_eq_true]

/-- The calls the loop of `GoalIndexHandler` makes: one filtered find for each key that
passes the test, in the order the loop visits the keys. -/
theorem goalIndexLoop_calls {σ α : Type} (C : Collection σ α) :
    ∀ (form : List (String × String × List String)) (acc : List (Record α) × State σ α),
      (form.foldl (goalIndexStep C) acc).2.calls = acc.2.calls ++
        (form.filter (fun kv => isPatientKey kv.1)).map
          (fun kv => StoreCall.All (.byPatient kv.2.1) none)
  | [], acc => by simp
  | kv :: form, acc => by
    rw [List.foldl_cons, goalIndexLoop_calls C form, goalIndexStep_eq]
    by_cases h : isPatientKey kv.1 = true
    · simp [h, List.filter_cons]
    · simp [h, List.filter_cons]

theorem goalIndexLoop_skip {σ α : Type} (C : Collection σ α) :
    ∀ (form : List (String × String × List String)) (acc : List (Record α) × State σ α),
      (∀ kv ∈ form, isPatientKey kv.1 = false) → form.foldl (goalIndexStep C) acc = acc
  | [], _, _ => rfl
  | kv :: form, acc, h => by
    rw [List.foldl_cons, goalIndexStep_eq, h kv (by simp)]
    simp only [Bool.false_eq_true, if_false]
    exact goalIndexLoop_skip C form acc (fun x hx => h x (by simp [hx]))

theorem entryIndexTail_calls {σ α : Type} (name : String) (env : Env)
    (result : List (Record α)) (s : State σ α) :
    (entryIndexTail name env result s).calls = s.calls := by
  simp [entryIndexTail]

theorem entryIndexTail_body {σ α : Type} (name : String) (env : Env)
    (result : List (Record α)) (ctx : Context α) (db : σ) :
    (entryIndexTail name env result (State.start ctx db)).rw.body =
      [.json (.entryBundle
        { BundleType := "Bundle", Title := name ++ " Index", Id := env.NewObjectId.Hex,
          Updated := env.Now, TotalResults := result.length,
          Entry := entryList name result })] := by
  simp [entryIndexTail, State.Encode, State.HeaderSet, State.ContextSet, State.start,
    ResponseWriter.Write, ResponseWriter.WriteHeader, ResponseWriter.new]

theorem eraseP_byId_eq_filter {α : Type} (i : String) :
    ∀ docs : List (Record α), (docs.map (fun d => d.Id)).Nodup →
      docs.eraseP (Selector.byId i).matches = docs.filter (fun d => d.Id != i)
  | [], _ => rfl
  | d :: ds, h => by
    rw [List.map_cons, List.nodup_cons] at h
    by_cases hd : d.Id = i
    · have hm : (Selector.byId i).matches d = true := by simp [Selector.matches, hd]
      rw [List.eraseP_cons_of_pos hm, List.filter_cons]
      have hrest : ds.filter (fun d => d.Id != i) = ds := by
        rw [List.filter_eq_self]
        intro x hx
        have : x.Id ≠ i := fun hxi => h.1 (by
          rw [hd, ← hxi]
          exact List.mem_map_of_mem (fun d => d.Id) hx)
        simpa using this
      simp [hd, hrest]
    · have hm : ¬ (Selector.byId i).matches d = true := by simp [Selector.matches, hd]
      rw [List.eraseP_cons_of_neg hm, List.filter_cons, eraseP_byId_eq_filter i ds h.2]
      simp [hd]

theorem GoalIndexHandler_calls {σ α : Type} (C : Collection σ α) (env : Env)
    (r : Request α) (ctx : Context α) (db : σ) :
    (GoalIndexHandler C env r (State.start ctx db)).calls =
      if r.Form = [] then [.All .all (some 100)]
      else (r.Form.filter (fun kv => isPatientKey kv.1)).map
        (fun kv => StoreCall.All (.byPatient kv.2.1) none) := by
  unfold GoalIndexHandler
  by_cases h : r.Form = []
  · simp [h, entryIndexTail_calls]
  · have hl : ¬ r.Form.length = 0 := by simpa using h
    simp only [hl, h, if_false, entryIndexTail_calls, goalIndexLoop_calls]
    simp

theorem State.checkId_valid {σ α : Type} (s : State σ α) (r : Request α)
    (hv : IsObjectIdHex (r.Var "id") = true) : s.checkId r = s := by
  simp [State.checkId, hv]

theorem State.start_Error_body {σ α : Type} (ctx : Context α) (db : σ) (m : String) (c : Nat) :
    ((State.start ctx db : State σ α).Error m c).rw.body = [.text (m ++ "\n")] := by
  simp [State.Error, ResponseWriter.Error, ResponseWriter.Write, ResponseWriter.WriteHeader,
    State.start, ResponseWriter.new]

theorem DeleteHandler_present {α : Type} (name : String) (r : Request α) (ctx : Context α)
    (docs : List (Record α)) (hv : IsObjectIdHex (r.Var "id") = true)
    (hlow : IsLowerHex24 (r.Var "id"))
    (hpres : docs.any (Selector.byId (r.Var "id")).matches = true) :
    (DeleteHandler name (docStore α) r (State.start ctx docs)).rw.statusWritten = none ∧
    (DeleteHandler name (docStore α) r (State.start ctx docs)).db
      = docs.eraseP (Selector.byId (r.Var "id")).matches ∧
    (DeleteHandler name (docStore α) r (State.start ctx docs)).calls
      = [.Remove (.byId (r.Var "id"))] ∧
    (DeleteHandler name (docStore α) r (State.start ctx docs)).ctx.Get "Action"
      = .str "delete" := by
  have hrem : (docStore α).Remove docs (.byId (r.Var "id"))
      = (docs.eraseP (Selector.byId (r.Var "id")).matches, none) := by
    simp only [docStore, hpres, if_true]
  simp only [DeleteHandler, routeId_Hex_lower r hv hlow, State.checkId_valid _ r hv,
    State.start_db, hrem]
  refine ⟨rfl, rfl, rfl, ?_⟩
  simp only [State.ContextSet_ctx, Context.Get_Set_same]

theorem DeleteHandler_absent {α : Type} (name : String) (r : Request α) (ctx : Context α)
    (docs : List (Record α)) (hv : IsObjectIdHex (r.Var "id") = true)
    (hlow : IsLowerHex24 (r.Var "id"))
    (habs : docs.any (Selector.byId (r.Var "id")).matches = false) :
    (DeleteHandler name (docStore α) r (State.start ctx docs)).rw.statusWritten = some 500 ∧
    (DeleteHandler name (docStore α) r (State.start ctx docs)).rw.body
      = [.text "not found\n"] ∧
    (DeleteHandler name (docStore α) r (State.start ctx docs)).db = docs ∧
    (DeleteHandler name (docStore α) r (State.start ctx docs)).ctx = ctx := by
  have hrem : (docStore α).Remove docs (.byId (r.Var "id")) = (docs, some "not found") := by
    simp only [docStore, habs, Bool.false_eq_true, if_false]
  simp only [DeleteHandler, routeId_Hex_lower r hv hlow, State.checkId_valid _ r hv,
    State.start_db, hrem]
  refine ⟨?_, ?_, rfl, rfl⟩
  · rfl
  · rfl

/-! ## Store failures in the Index handlers -/

/-- The loop of `GoalIndexHandler` leaves the store as it is, and the first status written
after it is 500 as soon as one of its filtered finds fails. -/
theorem goalIndexLoop_status {σ α : Type} (C : Collection σ α) :
    ∀ (form : List (String × String × List String)) (acc : List (Record α) × State σ α),
      (form.foldl (goalIndexStep C) acc).2.db = acc.2.db ∧
      (form.foldl (goalIndexStep C) acc).2.rw.statusWritten =
        if form.any (fun kv => isPatientKey kv.1 &&
            (C.All acc.2.db (.byPatient kv.2.1) none).2.isSome)
        then some (acc.2.rw.statusWritten.getD 500) else acc.2.rw.statusWritten
  | [], acc => by simp
  | kv :: form, acc => by
    rw [List.foldl_cons, goalIndexStep_eq]
    by_cases hk : isPatientKey kv.1 = true
    · simp only [hk, if_true]
      cases hf : (C.All acc.2.db (.byPatient kv.2.1) none).2 with
      | none =>
        obtain ⟨h1, h2⟩ := goalIndexLoop_status C form
          ((C.All acc.2.db (.byPatient kv.2.1) none).1,
            (acc.2.call (.All (.byPatient kv.2.1) none)).ErrorIf none)
        simp only [State.ErrorIf_none, State.call_db, State.call_rw] at h1 h2
        refine ⟨by simpa using h1, ?_⟩
        simp only [State.ErrorIf_none]
        rw [h2, List.any_cons, hk, hf]
        have hx : (true && (none : Option String).isSome) = false := rfl
        rw [hx, Bool.false_or]
      | some m =>
        obtain ⟨h1, h2⟩ := goalIndexLoop_status C form
          ((C.All acc.2.db (.byPatient kv.2.1) none).1,
            (acc.2.call (.All (.byPatient kv.2.1) none)).ErrorIf (some m))
        simp only [State.ErrorIf_some, State.Error_db, State.call_db, State.Error_rw,
          ResponseWriter.statusWritten_Error, State.call_rw] at h1 h2
        refine ⟨by simpa using h1, ?_⟩
        simp only [State.ErrorIf_some]
        rw [h2, List.any_cons, hk, hf]
        have hx : (true && (some m : Option String).isSome) = true := rfl
        rw [hx, Bool.true_or]
        simp
    · obtain ⟨h1, h2⟩ := goalIndexLoop_status C form acc
      have hk2 : isPatientKey kv.1 = false := by simpa using hk
      simp only [hk2, Bool.false_eq_true, if_false]
      refine ⟨h1, ?_⟩
      rw [h2, List.any_cons, hk2, Bool.false_and, Bool.false_or]

theorem GoalIndexHandler_status_form {σ α : Type} (C : Collection σ α) (env : Env)
    (r : Request α) (ctx : Context α) (db : σ) (hform : r.Form ≠ []) :
    (GoalIndexHandler C env r (State.start ctx db)).rw.statusWritten =
      if r.Form.any (fun kv => isPatientKey kv.1 &&
          (C.All db (.byPatient kv.2.1) none).2.isSome)
      then some 500 else some 200 := by
  have hl : ¬ r.Form.length = 0 := by simpa using hform
  obtain ⟨_, h2⟩ := goalIndexLoop_status C r.Form (([] : List (Record α)), State.start ctx db)
  simp only [GoalIndexHandler, hl, if_false, entryIndexTail_status, h2, State.start_db,
    State.start_status]
  split <;> simp

theorem IndexHandler_status_unfiltered {σ α : Type} (res : Resource) (C : Collection σ α)
    (env : Env) (r : Request α) (ctx : Context α) (db : σ)
    (hcond : r.Form = [] ∨ res ≠ .Goal) :
    (IndexHandler res C env r (State.start ctx db)).rw.statusWritten =
      if (C.All db .all (some 100)).2.isSome then some 500 else some 200 := by
  rcases hcond with hform | hres
  · exact IndexHandler_status res C env r ctx db hform
  · cases res
    · exact absurd rfl hres
    all_goals
      cases h : (C.All db .all (some 100)).2 <;>
      simp [IndexHandler, ProcessRequestIndexHandler, ResourceIndexHandler,
        entryIndexTail_status, State.ErrorIf_status, ResponseWriter.statusWritten_Error, h]

/-! ## Claims -/

/-- C1 (fails on the code): with the route id "xyz", which `bson.IsObjectIdHex` rejects,
`EncounterShowHandler`, `GoalUpdateHandler` and `GoalDeleteHandler` write status 400 and
then still call `One`, `Update` and `Remove` on the collection, with the selector
`_id = ""` of the zero identifier. -/
theorem C1_invalid_id_reaches_store :
    IsObjectIdHex "xyz" = false ∧
    (EncounterShowHandler (docStore Unit) (sampleRequest "xyz") (State.start [] [])).calls
      = [.One (.byId "")] ∧
    (EncounterShowHandler (docStore Unit) (sampleRequest "xyz")
      (State.start [] [])).rw.statusWritten = some 400 ∧
    (GoalUpdateHandler (docStore Unit) (sampleRequest "xyz") (State.start [] [])).calls
      = [.Update (.byId "") (sampleRecord "" none)] ∧
    (GoalUpdateHandler (docStore Unit) (sampleRequest "xyz")
      (State.start [] [])).rw.statusWritten = some 400 ∧
    (GoalDeleteHandler (docStore Unit) (sampleRequest "xyz") (State.start [] [])).calls
      = [.Remove (.byId "")] ∧
    (GoalDeleteHandler (docStore Unit) (sampleRequest "xyz")
      (State.start [] [])).rw.statusWritten = some 400 := by
  decide

/-- C2: in the map model of a collection, when the body of a Create decodes and the insert
succeeds, the Location header names the new id `i`, the document stored under `i` is the
payload with id `i`, and a Show with route id `i` on the resulting store answers 200 with
that record: the payload with its id field set to `i`. With a host name available Create
itself writes no error. -/
theorem C2_create_then_show {α : Type} (res : Resource) (docs : List (Record α)) (env : Env)
    (ctx ctx2 : Context α) (r r2 : Request α)
    (hdec : r.Body.2 = none) (h12 : env.NewObjectId.length = 12)
    (hins : ((docStore α).Insert docs { r.Body.1 with Id := env.NewObjectId.Hex }).2 = none)
    (hid : r2.Var "id" = env.NewObjectId.Hex) :
    (ResourceCreate res (docStore α) env r (State.start ctx docs)).rw.header.Values "Location"
        = ["http://" ++ env.Hostname.1 ++ res.loc ++ env.NewObjectId.Hex] ∧
    (docStore α).One (ResourceCreate res (docStore α) env r (State.start ctx docs)).db
        (.byId env.NewObjectId.Hex) = .ok { r.Body.1 with Id := env.NewObjectId.Hex } ∧
    (ShowHandler res (docStore α) r2 (State.start ctx2
        (ResourceCreate res (docStore α) env r (State.start ctx docs)).db)).rw.body
        = [.json (.record { r.Body.1 with Id := env.NewObjectId.Hex })] ∧
    (ShowHandler res (docStore α) r2 (State.start ctx2
        (ResourceCreate res (docStore α) env r (State.start ctx docs)).db)).rw.statusWritten
        = some 200 ∧
    (env.Hostname.2 = none →
      (ResourceCreate res (docStore α) env r (State.start ctx docs)).rw.statusWritten = none) := by
  obtain ⟨hdb, hfresh⟩ := docStore_Insert_ok docs _ hins
  have hone := docStore_One_appended docs { r.Body.1 with Id := env.NewObjectId.Hex } hfresh
  obtain ⟨hv, hrid⟩ := routeId_of_Hex r2 env.NewObjectId h12 hid
  have hdb2 : (ResourceCreate res (docStore α) env r (State.start ctx docs)).db
      = docs ++ [{ r.Body.1 with Id := env.NewObjectId.Hex }] := by
    rw [ResourceCreate, CreateHandler_db]
    exact hdb
  rw [hdb2]
  refine ⟨?_, hone, ?_, ?_, ?_⟩
  · rw [ResourceCreate, CreateHandler_Location]
    simp [State.start, ResponseWriter.new, Header.Values]
  · exact (ShowHandler_found res (docStore α) r2 ctx2 _ _ hv (by rw [hrid]; exact hone)).1
  · exact (ShowHandler_found res (docStore α) r2 ctx2 _ _ hv (by rw [hrid]; exact hone)).2
  · intro hhost
    simp [ResourceCreate, CreateHandler, hdec, hhost, hins, State.start, State.HeaderAdd,
      ResponseWriter.new, ResponseWriter.statusWritten]

/-- Witness of C2: Create of an empty Goal on an empty collection, then Show of the new id. -/
theorem C2_create_then_show_witness :
    (ResourceCreate .Goal (docStore Unit) sampleEnv (sampleRequest "") (State.start [] [])
        ).rw.header.Values "Location" = ["http://fhir:3001/Goal/abababababababababababab"] ∧
    (ShowHandler .Goal (docStore Unit) (sampleRequest "abababababababababababab")
        (State.start [] (ResourceCreate .Goal (docStore Unit) sampleEnv (sampleRequest "")
          (State.start [] [])).db)).rw.body
        = [.json (.record (sampleRecord "abababababababababababab" none))] :=
  have h := C2_create_then_show .Goal ([] : List (Record Unit)) sampleEnv [] []
    (sampleRequest "") (sampleRequest "abababababababababababab")
    (by decide) (by decide) (by decide) (by decide)
  ⟨h.1, h.2.2.1⟩

/-- C3: for a body that decodes to a payload `p`, whatever id `p` carries, Create inserts
`p` with its id overwritten by the hex form of the new identifier, puts that record in the
context, and adds the Location header "http://" + host + ":" + port + "/" + name + "/" +
that id; the id is a string of 24 lower-case hexadecimal digits. -/
theorem C3_create_assigns_fresh_id {σ α : Type} (res : Resource) (C : Collection σ α)
    (env : Env) (r : Request α) (s : State σ α) (p : Record α)
    (hdec : r.Body = (p, none)) (h12 : env.NewObjectId.length = 12) :
    (ResourceCreate res C env r s).calls
        = s.calls ++ [.Insert { p with Id := env.NewObjectId.Hex }] ∧
    (ResourceCreate res C env r s).ctx.Get res.name
        = .record { p with Id := env.NewObjectId.Hex } ∧
    (ResourceCreate res C env r s).rw.header.Values "Location"
        = s.rw.header.Values "Location" ++
          ["http://" ++ env.Hostname.1 ++ ":" ++ res.port ++ "/" ++ res.name ++ "/" ++
            env.NewObjectId.Hex] ∧
    IsLowerHex24 env.NewObjectId.Hex := by
  have hp : r.Body.1 = p := by rw [hdec]
  refine ⟨?_, ?_, ?_, (Hex_valid h12).2.2⟩
  · rw [ResourceCreate, CreateHandler_calls, hp]
  · rw [ResourceCreate, CreateHandler_ctx _ _ _ _ _ _ res.name_ne.1 res.name_ne.2, hp]
  · rw [ResourceCreate, CreateHandler_Location, Resource.loc_eq]

/-- Witness of C3: Create of a Goal whose body carries the id "client-id". -/
theorem C3_create_assigns_fresh_id_witness :
    (ResourceCreate .Goal (docStore Unit) sampleEnv
        { Vars := [], Form := [], Body := (sampleRecord "client-id" none, none) }
        (State.start [] [])).calls
      = [.Insert (sampleRecord "abababababababababababab" none)] :=
  (C3_create_assigns_fresh_id .Goal (docStore Unit) sampleEnv
    { Vars := [], Form := [], Body := (sampleRecord "client-id" none, none) }
    (State.start [] []) (sampleRecord "client-id" none) rfl (by decide)).1

/-- C4 (as stated, fails): the route id "ABCDEFABCDEFABCDEFABCDEF" passes validation, and
Update sets the record's id and the selector to "abcdefabcdefabcdefabcdef", which is not
the route id string. -/
theorem C4_uppercase_route_id_counterexample :
    IsObjectIdHex "ABCDEFABCDEFABCDEFABCDEF" = true ∧
    (GoalUpdateHandler (docStore Unit) (sampleRequest "ABCDEFABCDEFABCDEFABCDEF")
        (State.start [] [])).calls
      = [.Update (.byId "abcdefabcdefabcdefabcdef")
          (sampleRecord "abcdefabcdefabcdefabcdef" none)] ∧
    (GoalUpdateHandler (docStore Unit) (sampleRequest "ABCDEFABCDEFABCDEFABCDEF")
        (State.start [] [])).calls
      ≠ [.Update (.byId "ABCDEFABCDEFABCDEFABCDEF")
          (sampleRecord "ABCDEFABCDEFABCDEFABCDEF" none)] := by
  decide

/-- C4 (amended): for a route id that passes validation and a body that decodes to `p`,
Update sets the record's id to the lower-case form of the route id, whatever id `p`
carries, and asks the store to replace the document whose id is that lower-case form; the
lower-case form is the route id itself when the route id is 24 lower-case hexadecimal
digits. The handler takes no new identifier. -/
theorem C4_update_forces_route_id {σ α : Type} (res : Resource) (C : Collection σ α)
    (r : Request α) (s : State σ α) (p : Record α)
    (hv : IsObjectIdHex (r.Var "id") = true) (hdec : r.Body = (p, none)) :
    (ResourceUpdate res C r s).calls = s.calls ++
      [.Update (.byId (lowerCase (r.Var "id"))) { p with Id := lowerCase (r.Var "id") }] ∧
    (ResourceUpdate res C r s).ctx.Get res.name
      = .record { p with Id := lowerCase (r.Var "id") } ∧
    (IsLowerHex24 (r.Var "id") → lowerCase (r.Var "id") = r.Var "id") := by
  have hp : r.Body.1 = p := by rw [hdec]
  refine ⟨?_, ?_, ?_⟩
  · rw [ResourceUpdate, UpdateHandler_calls, routeId_Hex r hv, hp]
  · rw [ResourceUpdate, UpdateHandler_ctx _ _ _ _ res.name_ne.1 res.name_ne.2,
      routeId_Hex r hv, hp]
  · intro hlow
    rw [← routeId_Hex r hv, routeId_Hex_lower r hv hlow]

/-- Witness of C4: Update of a Goal with a lower-case route id and a body carrying another
id. -/
theorem C4_update_forces_route_id_witness :
    (ResourceUpdate .Goal (docStore Unit)
        { Vars := [("id", "0123456789abcdef01234567")], Form := [],
          Body := (sampleRecord "client-id" none, none) }
        (State.start [] [])).calls
      = [.Update (.byId (lowerCase "0123456789abcdef01234567"))
          { sampleRecord "client-id" none with Id := lowerCase "0123456789abcdef01234567" }] :=
  (C4_update_forces_route_id .Goal (docStore Unit)
    { Vars := [("id", "0123456789abcdef01234567")], Form := [],
      Body := (sampleRecord "client-id" none, none) }
    (State.start [] []) (sampleRecord "client-id" none) (by decide) rfl).1

/-- C5 (fails on the code): `GoalCreateHandler` on a body that does not decode writes
status 500 and then goes on: it inserts the record left by the decoder under a new id,
sets the create context and adds the Location header to the header map. -/
theorem C5_undecodable_body_is_inserted :
    (GoalCreateHandler (docStore Unit) sampleEnv (badBodyRequest "") (State.start [] [])
        ).rw.statusWritten = some 500 ∧
    (GoalCreateHandler (docStore Unit) sampleEnv (badBodyRequest "") (State.start [] [])).calls
      = [.Insert (sampleRecord "abababababababababababab" none)] ∧
    (GoalCreateHandler (docStore Unit) sampleEnv (badBodyRequest "") (State.start [] [])).db
      = [sampleRecord "abababababababababababab" none] ∧
    (GoalCreateHandler (docStore Unit) sampleEnv (badBodyRequest "") (State.start [] [])
        ).ctx.Get "Action" = .str "create" ∧
    (GoalCreateHandler (docStore Unit) sampleEnv (badBodyRequest "") (State.start [] [])
        ).rw.header.Values "Location" = ["http://fhir:3001/Goal/abababababababababababab"] := by
  decide

/-- C6 (as stated, fails): a Create whose body does not decode answers with status 500,
not 400. -/
theorem C6_undecodable_body_status_counterexample :
    (GoalCreateHandler (docStore Unit) sampleEnv (badBodyRequest "") (State.start [] [])
        ).rw.statusWritten = some 500 ∧
    (GoalCreateHandler (docStore Unit) sampleEnv (badBodyRequest "") (State.start [] [])
        ).rw.statusWritten ≠ some 400 := by
  decide

/-- C6 (amended): the first status written is 400 when the route id is invalid, in the
Update and Delete handlers of every resource and in the Show handlers of Encounter,
Location and Supply; it is 500 when the body cannot be decoded (Create, and Update with a
valid route id); and it is 500 when the store call fails: the unfiltered find of every
Index (whatever the query parameters for ProcessRequest, Encounter, Location and Supply,
without query parameters for Goal), the filtered find of the Goal Index for a parameter
patient:<modifier>, the insert of Create, and the lookup, update and remove of Show,
Update and Delete with a valid route id, whatever the body. -/
theorem C6_status_codes {σ α : Type} (res : Resource) (C : Collection σ α) (env : Env)
    (r : Request α) (ctx : Context α) (db : σ) (e : String) :
    (IsObjectIdHex (r.Var "id") = false →
      (ResourceUpdate res C r (State.start ctx db)).rw.statusWritten = some 400 ∧
      (ResourceDelete res C r (State.start ctx db)).rw.statusWritten = some 400 ∧
      (res.usesLoader = false →
        (ShowHandler res C r (State.start ctx db)).rw.statusWritten = some 400)) ∧
    (r.Body.2 = some e →
      (ResourceCreate res C env r (State.start ctx db)).rw.statusWritten = some 500 ∧
      (IsObjectIdHex (r.Var "id") = true →
        (ResourceUpdate res C r (State.start ctx db)).rw.statusWritten = some 500)) ∧
    (r.Form = [] ∨ res ≠ .Goal → (C.All db .all (some 100)).2 = some e →
      (IndexHandler res C env r (State.start ctx db)).rw.statusWritten = some 500) ∧
    (IsObjectIdHex (r.Var "id") = true → C.One db (.byId (routeId r).Hex) = .error e →
      (ShowHandler res C r (State.start ctx db)).rw.statusWritten = some 500) ∧
    ((C.Insert db { r.Body.1 with Id := env.NewObjectId.Hex }).2 = some e →
      (ResourceCreate res C env r (State.start ctx db)).rw.statusWritten = some 500) ∧
    (IsObjectIdHex (r.Var "id") = true →
      (C.Update db (.byId (routeId r).Hex) { r.Body.1 with Id := (routeId r).Hex }).2 = some e →
      (ResourceUpdate res C r (State.start ctx db)).rw.statusWritten = some 500) ∧
    (IsObjectIdHex (r.Var "id") = true → (C.Remove db (.byId (routeId r).Hex)).2 = some e →
      (ResourceDelete res C r (State.start ctx db)).rw.statusWritten = some 500) ∧
    (∀ kv ∈ r.Form, IsPatientParam kv.1 →
      (C.All db (.byPatient kv.2.1) none).2 = some e →
      (IndexHandler .Goal C env r (State.start ctx db)).rw.statusWritten = some 500) := by
  refine ⟨?_, ?_, ?_, ?_, ?_, ?_, ?_, ?_⟩
  · intro hbad
    refine ⟨?_, ?_, ?_⟩
    · simp [ResourceUpdate, UpdateHandler_status, hbad]
    · simp [ResourceDelete, DeleteHandler_status, hbad]
    · intro hl
      cases res <;> simp [Resource.usesLoader] at hl <;>
        simp [ShowHandler, ResourceShowHandler_status, hbad]
  · intro hbody
    refine ⟨?_, ?_⟩
    · simp [ResourceCreate, CreateHandler_status, hbody]
    · intro hv
      simp [ResourceUpdate, UpdateHandler_status, hbody, hv]
  · intro hcond hall
    simp [IndexHandler_status_unfiltered res C env r ctx db hcond, hall]
  · intro hv hone
    cases res <;>
      simp [ShowHandler, ResourceShowHandler_status, EntryShowHandler_status, hv, hone]
  · intro hins
    cases hbody : r.Body.2 <;>
      simp [ResourceCreate, CreateHandler_status, hbody, hins]
  · intro hv hupd
    cases hbody : r.Body.2 <;>
      simp [ResourceUpdate, UpdateHandler_status, hbody, hv, hupd]
  · intro hv hrem
    simp [ResourceDelete, DeleteHandler_status, hv, hrem]
  · intro kv hkv hparam hfail
    have hform : r.Form ≠ [] := List.ne_nil_of_mem hkv
    have hany : r.Form.any (fun kv => isPatientKey kv.1 &&
        (C.All db (.byPatient kv.2.1) none).2.isSome) = true := by
      rw [List.any_eq_true]
      exact ⟨kv, hkv, by rw [(isPatientKey_iff kv.1).mpr hparam, hfail]; rfl⟩
    simp only [IndexHandler]
    rw [GoalIndexHandler_status_form C env r ctx db hform, hany]
    rfl

/-- Witness of C6: an invalid route id on the Encounter handlers, a body that does not
decode on the Goal handlers, and a collection whose calls fail, also for the Encounter
Index with a query parameter and the Goal Index filtered by patient. -/
theorem C6_status_codes_witness :
    (ResourceUpdate .Encounter (docStore Unit) (sampleRequest "xyz")
        (State.start [] [])).rw.statusWritten = some 400 ∧
    (ShowHandler .Encounter (docStore Unit) (sampleRequest "xyz")
        (State.start [] [])).rw.statusWritten = some 400 ∧
    (ResourceCreate .Goal (docStore Unit) sampleEnv (badBodyRequest "")
        (State.start [] [])).rw.statusWritten = some 500 ∧
    (IndexHandler .Goal (brokenStore Unit) sampleEnv (sampleRequest "")
        (State.start [] ())).rw.statusWritten = some 500 ∧
    (ShowHandler .Goal (brokenStore Unit) (sampleRequest "0123456789abcdef01234567")
        (State.start [] ())).rw.statusWritten = some 500 ∧
    (ResourceCreate .Goal (brokenStore Unit) sampleEnv (sampleRequest "")
        (State.start [] ())).rw.statusWritten = some 500 ∧
    (ResourceUpdate .Goal (brokenStore Unit) (sampleRequest "0123456789abcdef01234567")
        (State.start [] ())).rw.statusWritten = some 500 ∧
    (ResourceDelete .Goal (brokenStore Unit) (sampleRequest "0123456789abcdef01234567")
        (State.start [] ())).rw.statusWritten = some 500 ∧
    (IndexHandler .Encounter (brokenStore Unit) sampleEnv (formRequest [("foo", "bar", [])])
        (State.start [] ())).rw.statusWritten = some 500 ∧
    (IndexHandler .Goal (brokenStore Unit) sampleEnv
        (formRequest [("patient:Patient", "123", [])])
        (State.start [] ())).rw.statusWritten = some 500 :=
  ⟨((C6_status_codes .Encounter (docStore Unit) sampleEnv (sampleRequest "xyz") [] [] "").1
      (by decide)).1,
    ((C6_status_codes .Encounter (docStore Unit) sampleEnv (sampleRequest "xyz") [] [] "").1
      (by decide)).2.2 (by decide),
    ((C6_status_codes .Goal (docStore Unit) sampleEnv (badBodyRequest "") [] []
      "unexpected EOF").2.1 (by decide)).1,
    (C6_status_codes .Goal (brokenStore Unit) sampleEnv (sampleRequest "") [] ()
      "no reachable servers").2.2.1 (Or.inl rfl) (by decide),
    (C6_status_codes .Goal (brokenStore Unit) sampleEnv
      (sampleRequest "0123456789abcdef01234567") [] ()
      "no reachable servers").2.2.2.1 (by decide) rfl,
    (C6_status_codes .Goal (brokenStore Unit) sampleEnv (sampleRequest "") [] ()
      "no reachable servers").2.2.2.2.1 (by decide),
    (C6_status_codes .Goal (brokenStore Unit) sampleEnv
      (sampleRequest "0123456789abcdef01234567") [] ()
      "no reachable servers").2.2.2.2.2.1 (by decide) (by decide),
    (C6_status_codes .Goal (brokenStore Unit) sampleEnv
      (sampleRequest "0123456789abcdef01234567") [] ()
      "no reachable servers").2.2.2.2.2.2.1 (by decide) (by decide),
    (C6_status_codes .Encounter (brokenStore Unit) sampleEnv
      (formRequest [("foo", "bar", [])]) [] ()
      "no reachable servers").2.2.1 (Or.inr (by decide)) (by decide),
    (C6_status_codes .Goal (brokenStore Unit) sampleEnv
      (formRequest [("patient:Patient", "123", [])]) [] ()
      "no reachable servers").2.2.2.2.2.2.2 ("patient:Patient", "123", [])
      (by simp [formRequest]) ((isPatientKey_iff "patient:Patient").mp (by decide))
      (by decide)⟩

/-- C7: for every resource and every store state, an Index request without query
parameters makes one call on the collection, the unfiltered find with limit 100, and
encodes a bundle holding the documents that call returned: at most 100 entries when the
store respects the limit, with totalResults equal to the number of entries. -/
theorem C7_index_without_parameters {σ α : Type} (res : Resource) (C : Collection σ α)
    (env : Env) (r : Request α) (s : State σ α)
    (hform : r.Form = [])
    (hlim : ∀ db sel n, (C.All db sel (some n)).1.length ≤ n) :
    (IndexHandler res C env r s).calls = s.calls ++ [.All .all (some 100)] ∧
    ∃ v, (IndexHandler res C env r s).rw.body.getLast? = some (.json v) ∧
      v.entryCount = (C.All s.db .all (some 100)).1.length ∧
      v.entryCount ≤ 100 ∧
      v.totalResults = some v.entryCount := by
  refine ⟨IndexHandler_calls res C env r s hform, ?_⟩
  obtain ⟨v, hv, hcount, htotal⟩ := IndexHandler_bundle res C env r s hform
  exact ⟨v, hv, hcount, by rw [hcount]; exact hlim _ _ _, htotal⟩

/-- Witness of C7: the Encounter index on a collection of 150 documents. -/
theorem C7_index_without_parameters_witness :
    (IndexHandler .Encounter (docStore Unit) sampleEnv (sampleRequest "")
        (State.start [] manyDocs)).calls = [] ++ [.All .all (some 100)] ∧
    ∃ v, (IndexHandler .Encounter (docStore Unit) sampleEnv (sampleRequest "")
        (State.start [] manyDocs)).rw.body.getLast? = some (.json v) ∧
      v.entryCount = ((docStore Unit).All manyDocs .all (some 100)).1.length ∧
      v.entryCount ≤ 100 ∧
      v.totalResults = some v.entryCount :=
  C7_index_without_parameters .Encounter (docStore Unit) sampleEnv (sampleRequest "")
    (State.start [] manyDocs) rfl docStore_All_limit

/-- C8 (as stated, fails): on a collection holding goals, a Goal Index request whose only
parameter is foo=bar, or patient=123 without a modifier, makes no call on the collection
and encodes an empty bundle, while the request without parameters makes the unfiltered
find with limit 100 and returns the goals. -/
theorem C8_unrecognised_parameters_counterexample :
    (GoalIndexHandler (docStore Unit) sampleEnv (formRequest [("foo", "bar", [])])
        (State.start [] sampleGoals)).calls = [] ∧
    (GoalIndexHandler (docStore Unit) sampleEnv (formRequest [("patient", "123", [])])
        (State.start [] sampleGoals)).calls = [] ∧
    (GoalIndexHandler (docStore Unit) sampleEnv (formRequest [("foo", "bar", [])])
        (State.start [] sampleGoals)).rw.body
      = [.json (.entryBundle
          { BundleType := "Bundle", Title := "Goal Index",
            Id := "abababababababababababab", Updated := 0, TotalResults := 0,
            Entry := [] })] ∧
    (GoalIndexHandler (docStore Unit) sampleEnv (formRequest [])
        (State.start [] sampleGoals)).calls = [.All .all (some 100)] ∧
    (GoalIndexHandler (docStore Unit) sampleEnv (formRequest [("foo", "bar", [])])
        (State.start [] sampleGoals)).rw.body
      ≠ (GoalIndexHandler (docStore Unit) sampleEnv (formRequest [])
        (State.start [] sampleGoals)).rw.body := by
  decide

/-- C8 (amended): the Goal Index handler queries the store by equality on the patient
reference only for a query parameter of the form patient:<modifier>=<value>, and does so
for every such parameter; a request that has parameters, none of them of that form, makes
no call on the collection at all and gets an empty bundle with totalResults 0. The calls
on the collection are exactly these: the unfiltered find with limit 100 alone when the
request has no parameters, and otherwise one filtered find for each parameter of that
form, in the order the loop visits them, and nothing else; so the unfiltered find is made
only for a request without parameters. -/
theorem C8_goal_index_filter {σ α : Type} (C : Collection σ α) (env : Env)
    (r : Request α) (ctx : Context α) (db : σ) :
    (∀ v lim, StoreCall.All (.byPatient v) lim ∈
        (GoalIndexHandler C env r (State.start ctx db)).calls →
      ∃ kv ∈ r.Form, IsPatientParam kv.1 ∧ kv.2.1 = v) ∧
    (∀ kv ∈ r.Form, IsPatientParam kv.1 →
      StoreCall.All (.byPatient kv.2.1) none ∈
        (GoalIndexHandler C env r (State.start ctx db)).calls) ∧
    (r.Form ≠ [] → (∀ kv ∈ r.Form, ¬ IsPatientParam kv.1) →
      (GoalIndexHandler C env r (State.start ctx db)).calls = [] ∧
      (GoalIndexHandler C env r (State.start ctx db)).rw.body
        = [.json (.entryBundle
            { BundleType := "Bundle", Title := "Goal Index", Id := env.NewObjectId.Hex,
              Updated := env.Now, TotalResults := 0, Entry := [] })]) ∧
    ((GoalIndexHandler C env r (State.start ctx db)).calls =
      if r.Form = [] then [.All .all (some 100)]
      else (r.Form.filter (fun kv => isPatientKey kv.1)).map
        (fun kv => StoreCall.All (.byPatient kv.2.1) none)) ∧
    (∀ key, isPatientKey key = true ↔ IsPatientParam key) ∧
    (r.Form ≠ [] → (GoalIndexHandler C env r (State.start ctx db)).calls.length =
      (r.Form.filter (fun kv => isPatientKey kv.1)).length) ∧
    ((∃ sel lim, StoreCall.All sel lim ∈ (GoalIndexHandler C env r (State.start ctx db)).calls ∧
        sel = .all) ↔ r.Form = []) := by
  refine ⟨?_, ?_, ?_, GoalIndexHandler_calls C env r ctx db, isPatientKey_iff, ?_, ?_⟩
  rotate_left 3
  · intro hform
    rw [GoalIndexHandler_calls]
    simp only [hform, if_false, List.length_map]
  · rw [GoalIndexHandler_calls]
    constructor
    · rintro ⟨sel, lim, hmem, hsel⟩
      by_contra hform
      simp only [hform, if_false, List.mem_map, List.mem_filter] at hmem
      obtain ⟨kv, _, heq⟩ := hmem
      subst hsel
      injection heq with h1 _
      exact Selector.noConfusion h1
    · intro hform
      exact ⟨.all, some 100, by simp [hform], rfl⟩
  · intro v lim hmem
    rw [GoalIndexHandler_calls] at hmem
    by_cases hform : r.Form = []
    · simp [hform] at hmem
    · simp only [hform, if_false, List.mem_map, List.mem_filter] at hmem
      obtain ⟨kv, ⟨hkv, hkey⟩, heq⟩ := hmem
      refine ⟨kv, hkv, (isPatientKey_iff kv.1).mp hkey, ?_⟩
      injection heq with h1 _
      injection h1
  · intro kv hkv hparam
    have hform : r.Form ≠ [] := List.ne_nil_of_mem hkv
    rw [GoalIndexHandler_calls]
    simp only [hform, if_false, List.mem_map, List.mem_filter]
    exact ⟨kv, ⟨hkv, (isPatientKey_iff kv.1).mpr hparam⟩, rfl⟩
  · intro hform hnone
    have hskip : ∀ kv ∈ r.Form, isPatientKey kv.1 = false := by
      intro kv hkv
      cases hk : isPatientKey kv.1 with
      | false => rfl
      | true => exact absurd ((isPatientKey_iff kv.1).mp hk) (hnone kv hkv)
    have hl : ¬ r.Form.length = 0 := by simpa using hform
    have hloop := goalIndexLoop_skip C r.Form (([] : List (Record α)), State.start ctx db) hskip
    refine ⟨?_, ?_⟩
    · simp only [GoalIndexHandler, hl, if_false, hloop, entryIndexTail_calls,
        State.start_calls]
    · simp only [GoalIndexHandler, hl, if_false, hloop, entryIndexTail_body]
      rfl

/-- Witness of C8: parameters foo=bar and patient=123 on a collection holding goals. -/
theorem C8_goal_index_filter_witness :
    (GoalIndexHandler (docStore Unit) sampleEnv
        (formRequest [("foo", "bar", []), ("patient", "123", [])])
        (State.start [] sampleGoals)).calls = [] ∧
    (∃ kv ∈ (formRequest [("zoo", "1", []), ("patient:Patient", "123", [])]).Form,
      IsPatientParam kv.1 ∧ kv.2.1 = "123") ∧
    (GoalIndexHandler (docStore Unit) sampleEnv
        (formRequest [("zoo", "1", []), ("patient:Patient", "123", [])])
        (State.start [] sampleGoals)).calls = [.All (.byPatient "123") none] :=
  ⟨((C8_goal_index_filter (docStore Unit) sampleEnv
      (formRequest [("foo", "bar", []), ("patient", "123", [])]) [] sampleGoals).2.2.1
      (by decide)
      (fun kv hkv hp => by
        have hk := (isPatientKey_iff kv.1).mpr hp
        have hcases : kv = ("foo", "bar", []) ∨ kv = ("patient", "123", []) := by
          simpa [formRequest] using hkv
        rcases hcases with h | h <;> subst h <;> exact absurd hk (by decide))).1,
    (C8_goal_index_filter (docStore Unit) sampleEnv
      (formRequest [("zoo", "1", []), ("patient:Patient", "123", [])]) [] sampleGoals).1
      "123" none (by decide),
    (C8_goal_index_filter (docStore Unit) sampleEnv
      (formRequest [("zoo", "1", []), ("patient:Patient", "123", [])]) [] sampleGoals).2.2.2.1⟩

/-- C9: in the map model of a collection, Goal Index with the single query parameter
patient:Patient=v makes one filtered find and answers 200 with a bundle of type "Bundle"
and title "Goal Index" whose entries are the stored goals with patient reference id `v`,
in store order, each with title "Goal " + id, the id of the goal, and the goal as
content; totalResults is their number. -/
theorem C9_goal_index_by_patient {α : Type} (docs : List (Record α)) (env : Env)
    (ctx : Context α) (r : Request α) (v : String)
    (hform : r.Form = [("patient:Patient", v, [])]) :
    (GoalIndexHandler (docStore α) env r (State.start ctx docs)).calls
      = [.All (.byPatient v) none] ∧
    (GoalIndexHandler (docStore α) env r (State.start ctx docs)).rw.statusWritten = some 200 ∧
    (GoalIndexHandler (docStore α) env r (State.start ctx docs)).rw.body
      = [.json (.entryBundle
          { BundleType := "Bundle", Title := "Goal Index", Id := env.NewObjectId.Hex,
            Updated := env.Now,
            TotalResults := (docs.filter (fun g => g.Patient == some v)).length,
            Entry := (docs.filter (fun g => g.Patient == some v)).map
              (fun g => { Title := "Goal " ++ g.Id, Id := g.Id, Content := g }) })] ∧
    (∀ e ∈ (docs.filter (fun g => g.Patient == some v)).map
        (fun g => ({ Title := "Goal " ++ g.Id, Id := g.Id, Content := g } : BundleEntry α)),
      e.Id = e.Content.Id) := by
  have hkey : isPatientKey "patient:Patient" = true := by decide
  have hstep : r.Form.foldl (goalIndexStep (docStore α)) ([], State.start ctx docs)
      = (docs.filter (fun g => g.Patient == some v),
          (State.start ctx docs).call (.All (.byPatient v) none)) := by
    rw [hform, List.foldl_cons, List.foldl_nil, goalIndexStep_eq]
    simp only [hkey, if_true, State.start_db, docStore, State.ErrorIf_none]
    rfl
  have hl : ¬ r.Form.length = 0 := by simp [hform]
  refine ⟨?_, ?_, ?_, ?_⟩
  · simp only [GoalIndexHandler, hl, if_false, hstep, entryIndexTail_calls]
    rfl
  · simp only [GoalIndexHandler, hl, if_false, hstep, entryIndexTail_status]
    rfl
  · simp only [GoalIndexHandler, hl, if_false, hstep]
    exact entryIndexTail_body "Goal" env _ ctx docs
  · intro e he
    simp only [List.mem_map] at he
    obtain ⟨g, _, rfl⟩ := he
    rfl

/-- Witness of C9: the goals of patient "123" among three stored goals. -/
theorem C9_goal_index_by_patient_witness :
    (GoalIndexHandler (docStore Unit) sampleEnv (formRequest [("patient:Patient", "123", [])])
        (State.start [] sampleGoals)).calls = [.All (.byPatient "123") none] ∧
    (GoalIndexHandler (docStore Unit) sampleEnv (formRequest [("patient:Patient", "123", [])])
        (State.start [] sampleGoals)).rw.body
      = [.json (.entryBundle
          { BundleType := "Bundle", Title := "Goal Index", Id := "abababababababababababab",
            Updated := 0, TotalResults := 2,
            Entry :=
              [{ Title := "Goal 0123456789abcdef00000001", Id := "0123456789abcdef00000001",
                 Content := sampleRecord "0123456789abcdef00000001" (some "123") },
               { Title := "Goal 0123456789abcdef00000003", Id := "0123456789abcdef00000003",
                 Content := sampleRecord "0123456789abcdef00000003" (some "123") }] })] :=
  have h := C9_goal_index_by_patient sampleGoals sampleEnv []
    (formRequest [("patient:Patient", "123", [])]) "123" rfl
  ⟨h.1, h.2.2.1⟩

/-- C10 (as stated, fails): the id "ABCDEFABCDEFABCDEFABCDEF" is valid and present in the
collection, and the first Delete of it fails with "not found" and removes nothing: the
handler removes by the lower-case form of the route id. -/
theorem C10_uppercase_id_counterexample :
    IsObjectIdHex "ABCDEFABCDEFABCDEFABCDEF" = true ∧
    (ResourceDelete .Location (docStore Unit) (sampleRequest "ABCDEFABCDEFABCDEFABCDEF")
        (State.start [] [sampleRecord "ABCDEFABCDEFABCDEFABCDEF" none])).rw.statusWritten
      = some 500 ∧
    (ResourceDelete .Location (docStore Unit) (sampleRequest "ABCDEFABCDEFABCDEFABCDEF")
        (State.start [] [sampleRecord "ABCDEFABCDEFABCDEFABCDEF" none])).rw.body
      = [.text "not found\n"] ∧
    (ResourceDelete .Location (docStore Unit) (sampleRequest "ABCDEFABCDEFABCDEFABCDEF")
        (State.start [] [sampleRecord "ABCDEFABCDEFABCDEFABCDEF" none])).db
      = [sampleRecord "ABCDEFABCDEFABCDEFABCDEF" none] := by
  decide

/-- C10 (amended): in the map model of a collection (document ids distinct, Remove failing
with "not found" when no document matches), for every valid route id in lower case that
is present in the collection, the first Delete writes no error, removes the document with
that id and no other, and records the delete in the context; a second Delete of the same id
on the resulting store fails with "not found" (status 500), leaves the store unchanged and
leaves the context untouched. -/
theorem C10_delete_twice {α : Type} (res : Resource) (docs : List (Record α))
    (r : Request α) (ctx ctx2 : Context α)
    (hv : IsObjectIdHex (r.Var "id") = true) (hlow : IsLowerHex24 (r.Var "id"))
    (hnodup : (docs.map (fun d => d.Id)).Nodup)
    (hpres : ∃ d ∈ docs, d.Id = r.Var "id") :
    (ResourceDelete res (docStore α) r (State.start ctx docs)).rw.statusWritten = none ∧
    (ResourceDelete res (docStore α) r (State.start ctx docs)).db
      = docs.filter (fun d => d.Id != r.Var "id") ∧
    (ResourceDelete res (docStore α) r (State.start ctx docs)).db.length + 1 = docs.length ∧
    (ResourceDelete res (docStore α) r (State.start ctx docs)).ctx.Get "Action"
      = .str "delete" ∧
    (ResourceDelete res (docStore α) r (State.start ctx2
        (ResourceDelete res (docStore α) r (State.start ctx docs)).db)).rw.statusWritten
      = some 500 ∧
    (ResourceDelete res (docStore α) r (State.start ctx2
        (ResourceDelete res (docStore α) r (State.start ctx docs)).db)).rw.body
      = [.text "not found\n"] ∧
    (ResourceDelete res (docStore α) r (State.start ctx2
        (ResourceDelete res (docStore α) r (State.start ctx docs)).db)).db
      = (ResourceDelete res (docStore α) r (State.start ctx docs)).db ∧
    (ResourceDelete res (docStore α) r (State.start ctx2
        (ResourceDelete res (docStore α) r (State.start ctx docs)).db)).ctx = ctx2 := by
  obtain ⟨d, hd, hdi⟩ := hpres
  have hmatch : (Selector.byId (r.Var "id")).matches d = true := by
    simp [Selector.matches, hdi]
  have hany : docs.any (Selector.byId (r.Var "id")).matches = true :=
    List.any_eq_true.mpr ⟨d, hd, hmatch⟩
  obtain ⟨h1, h2, _, h4⟩ := DeleteHandler_present res.name r ctx docs hv hlow hany
  have hfilter := eraseP_byId_eq_filter (r.Var "id") docs hnodup
  have hdb : (ResourceDelete res (docStore α) r (State.start ctx docs)).db
      = docs.filter (fun d => d.Id != r.Var "id") := by
    rw [ResourceDelete, h2, hfilter]
  have hlen : (docs.eraseP (Selector.byId (r.Var "id")).matches).length + 1 = docs.length := by
    have h := List.length_eraseP_of_mem hd hmatch
    have hpos : 0 < docs.length := List.length_pos_of_mem hd
    omega
  have habs : (docs.filter (fun d => d.Id != r.Var "id")).any
      (Selector.byId (r.Var "id")).matches = false := by
    rw [List.any_eq_false]
    intro x hx
    have hx2 := (List.mem_filter.mp hx).2
    simpa [Selector.matches] using hx2
  obtain ⟨g1, g2, g3, g4⟩ := DeleteHandler_absent res.name r ctx2 _ hv hlow habs
  rw [hdb]
  refine ⟨h1, rfl, ?_, h4, g1, g2, g3, g4⟩
  rw [← hfilter]
  exact hlen

/-- Witness of C10: deleting the second of three goals, twice. -/
theorem C10_delete_twice_witness :
    (ResourceDelete .Goal (docStore Unit) (sampleRequest "0123456789abcdef00000002")
        (State.start [] sampleGoals)).db
      = [sampleRecord "0123456789abcdef00000001" (some "123"),
         sampleRecord "0123456789abcdef00000003" (some "123")] ∧
    (ResourceDelete .Goal (docStore Unit) (sampleRequest "0123456789abcdef00000002")
        (State.start []
          (ResourceDelete .Goal (docStore Unit) (sampleRequest "0123456789abcdef00000002")
            (State.start [] sampleGoals)).db)).rw.statusWritten = some 500 :=
  have h := C10_delete_twice .Goal sampleGoals (sampleRequest "0123456789abcdef00000002") [] []
    (by decide)
    ⟨by decide, by decide⟩
    (by decide)
    ⟨sampleRecord "0123456789abcdef00000002" (some "456"), by decide, by decide⟩
  ⟨h.2.1, h.2.2.2.2.1⟩

/-! ## Claims on the request context, routing and headers -/

theorem EntryShowHandler_Action {σ α : Type} (name : String) (C : Collection σ α)
    (r : Request α) (s : State σ α) (hname : name ≠ "Action") :
    (EntryShowHandler name C r s).ctx.Get "Action" = .str "read" := by
  have hres : ("Action" : String) ≠ "Resource" := by decide
  simp only [EntryShowHandler, LoadResource, State.Encode_ctx, State.HeaderSet_ctx,
    State.ErrorIf_ctx]
  by_cases hv : IsObjectIdHex (r.Var "id") = true
  · simp only [hv, if_true]
    cases C.One (s.ContextSet "Action" (.str "read")).db
        (.byId ((ObjectIdHex (r.Var "id")).getD ObjectId.zero).Hex) with
    | error e => simp [Context.Get_Set_same]
    | ok result =>
      simp only [State.ContextSet_ctx, State.call_ctx]
      rw [Context.Get_Set_ne _ _ _ _ hres, Context.Get_Set_ne _ _ _ _ hname.symm,
        Context.Get_Set_same]
  · simp [hv, Context.Get_Set_same]

theorem ResourceShowHandler_ctx {σ α : Type} (name : String) (C : Collection σ α)
    (r : Request α) (s : State σ α) :
    (∀ result, C.One s.db (.byId (routeId r).Hex) = .ok result →
      (ResourceShowHandler name C r s).ctx.Get "Action" = .str "read") ∧
    (∀ e, C.One s.db (.byId (routeId r).Hex) = .error e →
      (ResourceShowHandler name C r s).ctx = s.ctx) := by
  refine ⟨?_, ?_⟩
  · intro result hone
    simp only [ResourceShowHandler, State.checkId_db, hone, State.Encode_ctx,
      State.HeaderSet_ctx, State.ContextSet_ctx, Context.Get_Set_same]
  · intro e hone
    simp only [ResourceShowHandler, State.checkId_db, hone, State.Error_ctx, State.call_ctx,
      State.checkId_ctx]

/-- C11 (as stated, fails): a Show of Encounter with a valid route id that is not in the
collection, and a Show with the invalid route id "xyz", return with no Action in the
request context. -/
theorem C11_encounter_show_failure_counterexample :
    (ShowHandler .Encounter (docStore Unit) (sampleRequest "0123456789abcdef01234567")
        (State.start [] [])).ctx.Get "Action" = .null ∧
    (ShowHandler .Encounter (docStore Unit) (sampleRequest "xyz")
        (State.start [] [])).ctx.Get "Action" = .null ∧
    (ShowHandler .Encounter (docStore Unit) (sampleRequest "0123456789abcdef01234567")
        (State.start [] [])).ctx.Get "Action" ≠ .str "read" := by
  decide

/-- C11 (amended): the Show handlers of Goal and ProcessRequest leave Action = "read" in
the request context whatever the route id and whatever the outcome of the lookup; the
Show handlers of Encounter, Location and Supply leave Action = "read" when their lookup
succeeds, and return with the context unchanged when it fails. -/
theorem C11_show_records_action {σ α : Type} (res : Resource) (C : Collection σ α)
    (r : Request α) (s : State σ α) :
    (res.usesLoader = true → (ShowHandler res C r s).ctx.Get "Action" = .str "read") ∧
    (res.usesLoader = false → ∀ result, C.One s.db (.byId (routeId r).Hex) = .ok result →
      (ShowHandler res C r s).ctx.Get "Action" = .str "read") ∧
    (res.usesLoader = false → ∀ e, C.One s.db (.byId (routeId r).Hex) = .error e →
      (ShowHandler res C r s).ctx = s.ctx) := by
  cases res
  · exact ⟨fun _ => EntryShowHandler_Action "Goal" C r s (by decide),
      fun h => by simp [Resource.usesLoader] at h, fun h => by simp [Resource.usesLoader] at h⟩
  · exact ⟨fun _ => EntryShowHandler_Action "ProcessRequest" C r s (by decide),
      fun h => by simp [Resource.usesLoader] at h, fun h => by simp [Resource.usesLoader] at h⟩
  · exact ⟨fun h => by simp [Resource.usesLoader] at h,
      fun _ => (ResourceShowHandler_ctx "Encounter" C r s).1,
      fun _ => (ResourceShowHandler_ctx "Encounter" C r s).2⟩
  · exact ⟨fun h => by simp [Resource.usesLoader] at h,
      fun _ => (ResourceShowHandler_ctx "Location" C r s).1,
      fun _ => (ResourceShowHandler_ctx "Location" C r s).2⟩
  · exact ⟨fun h => by simp [Resource.usesLoader] at h,
      fun _ => (ResourceShowHandler_ctx "Supply" C r s).1,
      fun _ => (ResourceShowHandler_ctx "Supply" C r s).2⟩

/-- Witness of C11: a failing Show of Goal records the action, a Show of Encounter records
it when the document is found. -/
theorem C11_show_records_action_witness :
    (ShowHandler .Goal (docStore Unit) (sampleRequest "xyz")
        (State.start [] [])).ctx.Get "Action" = .str "read" ∧
    (ShowHandler .Encounter (docStore Unit) (sampleRequest "0123456789abcdef00000002")
        (State.start [] sampleGoals)).ctx.Get "Action" = .str "read" ∧
    (ShowHandler .Encounter (docStore Unit) (sampleRequest "0123456789abcdef01234567")
        (State.start [("Trace", .str "t")] [])).ctx = [("Trace", .str "t")] :=
  ⟨(C11_show_records_action .Goal (docStore Unit) (sampleRequest "xyz")
      (State.start [] [])).1 (by decide),
    (C11_show_records_action .Encounter (docStore Unit)
      (sampleRequest "0123456789abcdef00000002") (State.start [] sampleGoals)).2.1 (by decide)
      (sampleRecord "0123456789abcdef00000002" (some "456")) rfl,
    (C11_show_records_action .Encounter (docStore Unit)
      (sampleRequest "0123456789abcdef01234567") (State.start [("Trace", .str "t")] [])).2.2
      (by decide) "not found" rfl⟩

theorem controllerGroup_eq {μ δ : Type} (name : String) (e : Engine μ δ)
    (m : List (HandlerFunc μ δ)) (config : Config) :
    controllerGroup name e m config =
      { Handlers := e.Handlers ++ m ++ scopeCheck config.Auth.Method name,
        basePath := ["/" ++ name] } := by
  have hm : (if m.length > 0 then (e.Group ("/" ++ name)).Use m else e.Group ("/" ++ name))
      = { Handlers := e.Handlers ++ m, basePath := ["/" ++ name] } := by
    cases m with
    | nil => simp [Engine.Group, Engine.root, RouterGroup.Group]
    | cons a as => simp [Engine.Group, Engine.root, RouterGroup.Group, RouterGroup.Use]
  unfold controllerGroup
  simp only [hm]
  cases config.Auth.Method <;> simp [scopeCheck, RouterGroup.Use]

theorem RegisterController_eq {μ δ : Type} (name : String) (e : Engine μ δ)
    (m : List (HandlerFunc μ δ)) (dal : δ) (config : Config) :
    RegisterController name e m dal config =
      { Handlers := e.Handlers,
        routes := e.routes ++
          controllerRoutes name (e.Handlers ++ m ++ scopeCheck config.Auth.Method name) dal } := by
  simp [RegisterController, controllerGroup_eq, Engine.handle, RouterGroup.Group,
    controllerRoutes]

theorem registerAll_eq {μ δ : Type} (config : List (String × List (HandlerFunc μ δ)))
    (dal : δ) (serverConfig : Config) :
    ∀ (names : List String) (e : Engine μ δ),
      names.foldl
        (fun e name => RegisterController name e (middlewareOf config name) dal serverConfig) e
      = { Handlers := e.Handlers,
          routes := e.routes ++ names.flatMap (fun name =>
            controllerRoutes name
              (e.Handlers ++ middlewareOf config name ++
                scopeCheck serverConfig.Auth.Method name) dal) }
  | [], e => by simp
  | name :: names, e => by
    rw [List.foldl_cons, registerAll_eq config dal serverConfig names, RegisterController_eq]
    simp [List.flatMap_cons, List.append_assoc]

theorem RegisterRoutes_eq {μ δ : Type} (e : Engine μ δ)
    (config : List (String × List (HandlerFunc μ δ))) (dal : δ) (serverConfig : Config)
    (SetUpRoutes : String → String → String → String → String → Engine μ δ → Engine μ δ) :
    RegisterRoutes e config dal serverConfig SetUpRoutes =
      { Handlers := (setUpAuth e serverConfig SetUpRoutes).Handlers,
        routes := (setUpAuth e serverConfig SetUpRoutes).routes ++
          batchRoute (setUpAuth e serverConfig SetUpRoutes).Handlers config dal ::
          resourceNames.flatMap (fun name =>
            controllerRoutes name
              ((setUpAuth e serverConfig SetUpRoutes).Handlers ++ middlewareOf config name ++
                scopeCheck serverConfig.Auth.Method name) dal) } := by
  unfold RegisterRoutes
  simp only [registerAll_eq]
  simp [Engine.handle, Engine.root, batchRoute]

theorem setUpAuth_None {μ δ : Type} (e : Engine μ δ) (serverConfig : Config)
    (SetUpRoutes : String → String → String → String → String → Engine μ δ → Engine μ δ)
    (hnone : serverConfig.Auth.Method = .None) : setUpAuth e serverConfig SetUpRoutes = e := by
  simp [setUpAuth, hnone]

theorem setUpAuth_OIDC_Handlers {μ δ : Type} (e : Engine μ δ) (serverConfig : Config)
    (SetUpRoutes : String → String → String → String → String → Engine μ δ → Engine μ δ)
    (hoidc : serverConfig.Auth.Method = .OIDC) :
    (setUpAuth e serverConfig SetUpRoutes).Handlers =
      e.Handlers ++ [.Sessions "mysession" serverConfig.Auth.SessionSecret,
        .authSwitch (oauthHandlerOf serverConfig) (oidcHandlerOf serverConfig)] := by
  simp [setUpAuth, hoidc, Engine.handle, Engine.Use, oauthHandlerOf, oidcHandlerOf]

/-- C12: `RegisterController` builds the group at "/" + name; the middleware it attaches,
after the chain the group takes over from the engine, is `m` followed by the scope check
of the name exactly when the auth method is OIDC or HEART, and `m` alone otherwise (so
for None); it binds GET, POST, PUT and DELETE on the group and GET, PUT and DELETE on the
"/:id" sub-group, each with the chain of the group followed by the controller handler,
and leaves the chain of the engine as it is. -/
theorem C12_register_controller {μ δ : Type} (name : String) (e : Engine μ δ)
    (m : List (HandlerFunc μ δ)) (dal : δ) (config : Config) :
    (controllerGroup name e m config).basePath = ["/" ++ name] ∧
    (controllerGroup name e m config).Handlers =
      e.Handlers ++ m ++ scopeCheck config.Auth.Method name ∧
    ((scopeCheck config.Auth.Method name : List (HandlerFunc μ δ)) = [.HEARTScopesHandler name] ↔
      (config.Auth.Method = .OIDC ∨ config.Auth.Method = .HEART)) ∧
    ((scopeCheck config.Auth.Method name : List (HandlerFunc μ δ)) = [] ↔
      ¬ (config.Auth.Method = .OIDC ∨ config.Auth.Method = .HEART)) ∧
    RegisterController name e m dal config =
      { Handlers := e.Handlers,
        routes := e.routes ++
          [{ Method := "GET", Path := ["/" ++ name, ""],
             Handlers := (controllerGroup name e m config).Handlers ++
               [.controller name dal .IndexHandler] },
           { Method := "POST", Path := ["/" ++ name, ""],
             Handlers := (controllerGroup name e m config).Handlers ++
               [.controller name dal .CreateHandler] },
           { Method := "PUT", Path := ["/" ++ name, ""],
             Handlers := (controllerGroup name e m config).Handlers ++
               [.controller name dal .ConditionalUpdateHandler] },
           { Method := "DELETE", Path := ["/" ++ name, ""],
             Handlers := (controllerGroup name e m config).Handlers ++
               [.controller name dal .ConditionalDeleteHandler] },
           { Method := "GET", Path := ["/" ++ name, "/:id", ""],
             Handlers := (controllerGroup name e m config).Handlers ++
               [.controller name dal .ShowHandler] },
           { Method := "PUT", Path := ["/" ++ name, "/:id", ""],
             Handlers := (controllerGroup name e m config).Handlers ++
               [.controller name dal .UpdateHandler] },
           { Method := "DELETE", Path := ["/" ++ name, "/:id", ""],
             Handlers := (controllerGroup name e m config).Handlers ++
               [.controller name dal .DeleteHandler] }] } := by
  refine ⟨?_, ?_, ?_, ?_, ?_⟩
  · rw [controllerGroup_eq]
  · rw [controllerGroup_eq]
  · by_cases h : config.Auth.Method = .OIDC ∨ config.Auth.Method = .HEART
    · simp [scopeCheck, h]
    · simp [scopeCheck, h]
  · by_cases h : config.Auth.Method = .OIDC ∨ config.Auth.Method = .HEART
    · simp [scopeCheck, h]
    · simp [scopeCheck, h]
  · rw [RegisterController_eq, controllerGroup_eq]
    rfl

theorem controllerRoutes_chain {μ δ : Type} (name : String) (chain : List (HandlerFunc μ δ))
    (dal : δ) (route : RouteInfo μ δ) (h : route ∈ controllerRoutes name chain dal) :
    ∃ op, route.Handlers = chain ++ [.controller name dal op] := by
  simp only [controllerRoutes, List.mem_cons, List.mem_singleton, List.not_mem_nil,
    or_false] at h
  rcases h with h | h | h | h | h | h | h <;> subst h <;> exact ⟨_, rfl⟩

/-- C13 (as stated, fails): with auth method None and the middleware `given 7` configured
for Goal, the route GET /Goal registered by `RegisterRoutes` on a new engine has the chain
`given 7` followed by the controller handler, not the controller handler alone. -/
theorem C13_configured_middleware_counterexample :
    ({ Method := "GET", Path := ["/Goal", ""],
       Handlers := [.given 7, .controller "Goal" () .IndexHandler] } : RouteInfo Nat Unit) ∈
      (RegisterRoutes Engine.new [("Goal", [.given 7])] () (sampleConfig .None) noSetUp).routes ∧
    ({ Method := "GET", Path := ["/Goal", ""],
       Handlers := [.controller "Goal" () .IndexHandler] } : RouteInfo Nat Unit) ∉
      (RegisterRoutes Engine.new [("Goal", [.given 7])] () (sampleConfig .None) noSetUp).routes := by
  rw [RegisterRoutes_eq, setUpAuth_None _ _ _ rfl]
  simp only [Engine.new, List.nil_append, List.mem_cons, List.mem_flatMap]
  constructor
  · right
    exact ⟨"Goal", by decide, by decide⟩
  · rintro (h | ⟨name, _, hmem⟩)
    · exact absurd h (by decide)
    · obtain ⟨op, hop⟩ := controllerRoutes_chain name _ () _ hmem
      simp only [sampleConfig, scopeCheck] at hop
      have hlen := congrArg List.length hop
      simp only [List.length_cons, List.length_nil, List.length_append] at hlen
      have hnil : middlewareOf ([("Goal", [.given 7])] :
          List (String × List (HandlerFunc Nat Unit))) name = [] := by
        apply List.eq_nil_of_length_eq_zero
        omega
      rw [hnil] at hop
      simp at hop
      obtain ⟨hname, _⟩ := hop
      subst hname
      exact absurd hnil (by decide)

/-- C13 (amended): when the auth method is None, `RegisterRoutes` attaches no middleware
to the engine and no scope check to any resource group: it registers the batch route and,
for each resource, the seven controller routes, whose handler chain is the chain the
engine already had, followed by the middleware configured for that resource, followed by
the controller handler. On an engine without middleware the chain of the routes of a
resource without configured middleware is the controller handler alone. -/
theorem C13_none_attaches_only_configured {μ δ : Type} (e : Engine μ δ)
    (config : List (String × List (HandlerFunc μ δ))) (dal : δ) (serverConfig : Config)
    (SetUpRoutes : String → String → String → String → String → Engine μ δ → Engine μ δ)
    (hnone : serverConfig.Auth.Method = .None) :
    (RegisterRoutes e config dal serverConfig SetUpRoutes).Handlers = e.Handlers ∧
    (RegisterRoutes e config dal serverConfig SetUpRoutes).routes =
      e.routes ++ batchRoute e.Handlers config dal ::
        resourceNames.flatMap (fun name =>
          controllerRoutes name (e.Handlers ++ middlewareOf config name) dal) ∧
    (e.Handlers = [] → ∀ name ∈ resourceNames, middlewareOf config name = [] →
      ∀ route ∈ controllerRoutes name [] dal,
        route ∈ (RegisterRoutes e config dal serverConfig SetUpRoutes).routes) := by
  have hscope : ∀ name, (scopeCheck serverConfig.Auth.Method name : List (HandlerFunc μ δ)) = [] := by
    intro name
    simp [scopeCheck, hnone]
  rw [RegisterRoutes_eq, setUpAuth_None e serverConfig SetUpRoutes hnone]
  simp only [hscope, List.append_nil]
  refine ⟨trivial, trivial, ?_⟩
  intro he name hname hm route hroute
  simp only [List.mem_append, List.mem_cons, List.mem_flatMap]
  right
  right
  exact ⟨name, hname, by simpa [he, hm] using hroute⟩

/-- Witness of C13: a new engine, middleware configured for Goal only. -/
theorem C13_none_attaches_only_configured_witness :
    (RegisterRoutes (Engine.new : Engine Nat Unit) [("Goal", [.given 7])] ()
        (sampleConfig .None) noSetUp).Handlers = [] ∧
    (∀ route ∈ controllerRoutes "Encounter" ([] : List (HandlerFunc Nat Unit)) (),
      route ∈ (RegisterRoutes (Engine.new : Engine Nat Unit) [("Goal", [.given 7])] ()
        (sampleConfig .None) noSetUp).routes) :=
  ⟨(C13_none_attaches_only_configured (Engine.new : Engine Nat Unit) [("Goal", [.given 7])] ()
      (sampleConfig .None) noSetUp rfl).1,
    (C13_none_attaches_only_configured (Engine.new : Engine Nat Unit) [("Goal", [.given 7])] ()
      (sampleConfig .None) noSetUp rfl).2.2 rfl "Encounter" (by decide) (by decide)⟩

/-- C14 (as stated, fails): a request that carries an Authorization header with an empty
value, next to a session cookie, is handed by the authentication middleware of OIDC mode
to the session handler and not to token introspection. -/
theorem C14_empty_authorization_counterexample :
    Header.Values [("Authorization", [""]), ("Cookie", ["mysession=abc"])] "Authorization"
      = [""] ∧
    (RegisterRoutes (Engine.new : Engine Nat Unit) [] () (sampleConfig .OIDC) noSetUp).Handlers
      = [.Sessions "mysession" "secret",
         .authSwitch (oauthHandlerOf (sampleConfig .OIDC)) (oidcHandlerOf (sampleConfig .OIDC))] ∧
    (HandlerFunc.authSwitch (oauthHandlerOf (sampleConfig .OIDC))
        (oidcHandlerOf (sampleConfig .OIDC)) : HandlerFunc Nat Unit).calls
        [("Authorization", [""]), ("Cookie", ["mysession=abc"])]
      = [oidcHandlerOf (sampleConfig .OIDC)] ∧
    (HandlerFunc.authSwitch (oauthHandlerOf (sampleConfig .OIDC))
        (oidcHandlerOf (sampleConfig .OIDC)) : HandlerFunc Nat Unit).calls
        [("Authorization", [""]), ("Cookie", ["mysession=abc"])]
      ≠ [oauthHandlerOf (sampleConfig .OIDC)] := by
  refine ⟨by decide, ?_, by decide, by decide⟩
  rw [RegisterRoutes_eq, setUpAuth_OIDC_Handlers _ _ _ rfl]
  rfl

/-- C14 (amended): in OIDC mode `RegisterRoutes` appends to the chain of the engine the
session middleware and then the authentication middleware, which calls the token
introspection handler, and not the session handler, for every request whose Authorization
header has a non-empty first value, whatever else the request carries, and calls the
session handler, and not introspection, for every other request: one without an
Authorization header or with an empty one. It calls exactly one of the two handlers. -/
theorem C14_oidc_auth_switch {μ δ : Type} (e : Engine μ δ)
    (config : List (String × List (HandlerFunc μ δ))) (dal : δ) (serverConfig : Config)
    (SetUpRoutes : String → String → String → String → String → Engine μ δ → Engine μ δ)
    (requestHeader : Header) (hoidc : serverConfig.Auth.Method = .OIDC) :
    (RegisterRoutes e config dal serverConfig SetUpRoutes).Handlers =
      e.Handlers ++ [.Sessions "mysession" serverConfig.Auth.SessionSecret,
        .authSwitch (oauthHandlerOf serverConfig) (oidcHandlerOf serverConfig)] ∧
    (requestHeader.Get "Authorization" ≠ "" →
      (HandlerFunc.authSwitch (oauthHandlerOf serverConfig) (oidcHandlerOf serverConfig) :
        HandlerFunc μ δ).calls requestHeader = [oauthHandlerOf serverConfig]) ∧
    (requestHeader.Get "Authorization" = "" →
      (HandlerFunc.authSwitch (oauthHandlerOf serverConfig) (oidcHandlerOf serverConfig) :
        HandlerFunc μ δ).calls requestHeader = [oidcHandlerOf serverConfig]) ∧
    (requestHeader.Values "Authorization" = [] → requestHeader.Get "Authorization" = "") ∧
    ((HandlerFunc.authSwitch (oauthHandlerOf serverConfig) (oidcHandlerOf serverConfig) :
        HandlerFunc μ δ).calls requestHeader).length = 1 ∧
    (oauthHandlerOf serverConfig : HandlerFunc μ δ) ≠ oidcHandlerOf serverConfig := by
  refine ⟨?_, ?_, ?_, ?_, ?_, ?_⟩
  · rw [RegisterRoutes_eq, setUpAuth_OIDC_Handlers _ _ _ hoidc]
  · intro h
    simp [HandlerFunc.calls, h]
  · intro h
    simp [HandlerFunc.calls, h]
  · intro h
    simp [Header.Get, h]
  · by_cases h : requestHeader.Get "Authorization" = ""
    · simp [HandlerFunc.calls, h]
    · simp [HandlerFunc.calls, h]
  · simp [oauthHandlerOf, oidcHandlerOf]

/-- Witness of C14: a bearer token next to a session cookie, and a request with the cookie
only. -/
theorem C14_oidc_auth_switch_witness :
    (HandlerFunc.authSwitch (oauthHandlerOf (sampleConfig .OIDC))
        (oidcHandlerOf (sampleConfig .OIDC)) : HandlerFunc Nat Unit).calls
        [("Authorization", ["Bearer abc"]), ("Cookie", ["mysession=abc"])]
      = [oauthHandlerOf (sampleConfig .OIDC)] ∧
    (HandlerFunc.authSwitch (oauthHandlerOf (sampleConfig .OIDC))
        (oidcHandlerOf (sampleConfig .OIDC)) : HandlerFunc Nat Unit).calls
        [("Cookie", ["mysession=abc"])]
      = [oidcHandlerOf (sampleConfig .OIDC)] :=
  ⟨(C14_oidc_auth_switch (Engine.new : Engine Nat Unit) [] () (sampleConfig .OIDC) noSetUp
      [("Authorization", ["Bearer abc"]), ("Cookie", ["mysession=abc"])] rfl).2.1 (by decide),
    (C14_oidc_auth_switch (Engine.new : Engine Nat Unit) [] () (sampleConfig .OIDC) noSetUp
      [("Cookie", ["mysession=abc"])] rfl).2.2.1 (by decide)⟩

/-! ## Response headers -/

theorem ResponseWriter.Write_finish_sent {α : Type} (w : ResponseWriter α) (c : Chunk α) :
    (w.Write c).finish.sent = if w.wroteHeader then w.sent else w.header := by
  cases h : w.wroteHeader <;>
    simp [ResponseWriter.Write, ResponseWriter.finish, ResponseWriter.WriteHeader, h]

theorem jsonHeaders_of_new :
    (Header.Values (Header.Set (Header.Set [] "Content-Type" "application/json; charset=utf-8")
        "Access-Control-Allow-Origin" "*") "Content-Type"
      = ["application/json; charset=utf-8"]) ∧
    (Header.Values (Header.Set (Header.Set [] "Content-Type" "application/json; charset=utf-8")
        "Access-Control-Allow-Origin" "*") "Access-Control-Allow-Origin" = ["*"]) := by
  decide

theorem entryIndexTail_headers {σ α : Type} (name : String) (env : Env)
    (result : List (Record α)) (s : State σ α) (hrw : s.rw = ResponseWriter.new) :
    (entryIndexTail name env result s).rw.carriesJsonHeaders := by
  simp only [entryIndexTail, State.Encode, State.HeaderSet, State.ContextSet, hrw,
    ResponseWriter.carriesJsonHeaders, ResponseWriter.Write_finish_sent]
  exact jsonHeaders_of_new

theorem goalIndexLoop_rw {σ α : Type} (C : Collection σ α) :
    ∀ (form : List (String × String × List String)) (acc : List (Record α) × State σ α),
      (acc.2.rw = ResponseWriter.new ∨ acc.2.rw.statusWritten = some 500) →
      ((form.foldl (goalIndexStep C) acc).2.rw = ResponseWriter.new ∨
        (form.foldl (goalIndexStep C) acc).2.rw.statusWritten = some 500)
  | [], _, h => h
  | kv :: form, acc, h => by
    rw [List.foldl_cons]
    apply goalIndexLoop_rw C form
    rw [goalIndexStep_eq]
    by_cases hk : isPatientKey kv.1 = true
    · simp only [hk, if_true]
      cases hfound : (C.All acc.2.db (.byPatient kv.2.1) none).2 with
      | none => simpa using h
      | some e =>
        right
        rcases h with h | h
        · rw [State.ErrorIf_some, State.Error_rw, ResponseWriter.statusWritten_Error,
            State.call_rw, h]
          rfl
        · rw [State.ErrorIf_some, State.Error_rw, ResponseWriter.statusWritten_Error,
            State.call_rw, h]
          rfl
    · simpa [hk] using h

theorem entryIndexTail_of_loop {σ α : Type} (name : String) (env : Env)
    (result : List (Record α)) (s : State σ α)
    (hrw : s.rw = ResponseWriter.new ∨ s.rw.statusWritten = some 500)
    (h200 : (entryIndexTail name env result s).rw.statusWritten = some 200) :
    (entryIndexTail name env result s).rw.carriesJsonHeaders := by
  rcases hrw with hrw | hrw
  · exact entryIndexTail_headers name env result s hrw
  · rw [entryIndexTail_status, hrw] at h200
    simp at h200

theorem State.ErrorIf_rw_cases {σ α : Type} (s : State σ α) (e : Option String)
    (hrw : s.rw = ResponseWriter.new) :
    (s.ErrorIf e).rw = ResponseWriter.new ∨ (s.ErrorIf e).rw.statusWritten = some 500 := by
  cases e with
  | none => exact Or.inl hrw
  | some m =>
    right
    rw [State.ErrorIf_some, State.Error_rw, ResponseWriter.statusWritten_Error, hrw]
    rfl

theorem ResourceIndexHandler_headers {σ α : Type} (name : String) (C : Collection σ α)
    (env : Env) (r : Request α) (ctx : Context α) (db : σ)
    (h200 : (ResourceIndexHandler name C env r (State.start ctx db)).rw.statusWritten
      = some 200) :
    (ResourceIndexHandler name C env r (State.start ctx db)).rw.carriesJsonHeaders := by
  have hcases := State.ErrorIf_rw_cases ((State.start ctx db).call (.All .all (some 100)))
    (C.All (State.start ctx db).db .all (some 100)).2 rfl
  simp only [ResourceIndexHandler, State.Encode_rw_status, State.HeaderSet_rw_status,
    State.ContextSet_rw] at h200
  rcases hcases with hrw | hrw
  · simp only [ResourceIndexHandler, State.Encode, State.HeaderSet, State.ContextSet, hrw,
      ResponseWriter.carriesJsonHeaders, ResponseWriter.Write_finish_sent]
    exact jsonHeaders_of_new
  · rw [hrw] at h200
    simp at h200

theorem IndexHandler_headers {σ α : Type} (res : Resource) (C : Collection σ α)
    (env : Env) (r : Request α) (ctx : Context α) (db : σ)
    (h200 : (IndexHandler res C env r (State.start ctx db)).rw.statusWritten = some 200) :
    (IndexHandler res C env r (State.start ctx db)).rw.carriesJsonHeaders := by
  cases res
  · simp only [IndexHandler, GoalIndexHandler] at h200 ⊢
    by_cases hform : r.Form.length = 0
    · simp only [hform, if_true] at h200 ⊢
      exact entryIndexTail_of_loop _ _ _ _ (State.ErrorIf_rw_cases _ _ rfl) h200
    · simp only [hform, if_false] at h200 ⊢
      exact entryIndexTail_of_loop _ _ _ _
        (goalIndexLoop_rw C r.Form ([], State.start ctx db) (Or.inl rfl)) h200
  · simp only [IndexHandler, ProcessRequestIndexHandler] at h200 ⊢
    exact entryIndexTail_of_loop _ _ _ _ (State.ErrorIf_rw_cases _ _ rfl) h200
  · exact ResourceIndexHandler_headers "Encounter" C env r ctx db h200
  · exact ResourceIndexHandler_headers "Location" C env r ctx db h200
  · exact ResourceIndexHandler_headers "Supply" C env r ctx db h200

theorem ResourceShowHandler_headers {σ α : Type} (name : String) (C : Collection σ α)
    (r : Request α) (ctx : Context α) (db : σ)
    (h200 : (ResourceShowHandler name C r (State.start ctx db)).rw.statusWritten = some 200) :
    (ResourceShowHandler name C r (State.start ctx db)).rw.carriesJsonHeaders := by
  rw [ResourceShowHandler_status] at h200
  by_cases hv : IsObjectIdHex (r.Var "id") = true
  · simp only [hv, if_true] at h200
    cases hone : C.One db (.byId (routeId r).Hex) with
    | error e => simp [hone] at h200
    | ok result =>
      simp only [ResourceShowHandler, State.checkId_valid _ r hv, State.start_db, hone,
        State.Encode, State.HeaderSet, State.ContextSet, State.call, State.start,
        ResponseWriter.carriesJsonHeaders, ResponseWriter.Write_finish_sent,
        ResponseWriter.new]
      exact jsonHeaders_of_new
  · simp [hv] at h200

theorem EntryShowHandler_headers {σ α : Type} (name : String) (C : Collection σ α)
    (r : Request α) (ctx : Context α) (db : σ)
    (h200 : (EntryShowHandler name C r (State.start ctx db)).rw.statusWritten = some 200) :
    (EntryShowHandler name C r (State.start ctx db)).rw.carriesJsonHeaders := by
  rw [EntryShowHandler_status] at h200
  by_cases hv : IsObjectIdHex (r.Var "id") = true
  · simp only [hv, if_true] at h200
    cases hone : C.One db (.byId (routeId r).Hex) with
    | error e => simp [hone] at h200
    | ok result =>
      simp only [EntryShowHandler, LoadResource, hv, if_true, routeId_valid r hv,
        State.ContextSet_db, State.start_db, hone, State.ErrorIf_none,
        State.Encode, State.HeaderSet, State.ContextSet, State.call, State.start,
        ResponseWriter.carriesJsonHeaders, ResponseWriter.Write_finish_sent,
        ResponseWriter.new]
      exact jsonHeaders_of_new
  · simp [hv] at h200

theorem ShowHandler_headers {σ α : Type} (res : Resource) (C : Collection σ α)
    (r : Request α) (ctx : Context α) (db : σ)
    (h200 : (ShowHandler res C r (State.start ctx db)).rw.statusWritten = some 200) :
    (ShowHandler res C r (State.start ctx db)).rw.carriesJsonHeaders := by
  cases res
  · exact EntryShowHandler_headers "Goal" C r ctx db h200
  · exact EntryShowHandler_headers "ProcessRequest" C r ctx db h200
  · exact ResourceShowHandler_headers "Encounter" C r ctx db h200
  · exact ResourceShowHandler_headers "Location" C r ctx db h200
  · exact ResourceShowHandler_headers "Supply" C r ctx db h200

theorem ResponseWriter.lacksJsonHeaders_Error {α : Type} (w : ResponseWriter α) (m : String)
    (c : Nat) (h : w.lacksJsonHeaders) : (w.Error m c).lacksJsonHeaders := by
  have hh : Header.Values (Header.Set (Header.Set w.header "Content-Type"
        "text/plain; charset=utf-8") "X-Content-Type-Options" "nosniff")
        "Access-Control-Allow-Origin" = [] ∧
      Header.Values (Header.Set (Header.Set w.header "Content-Type"
        "text/plain; charset=utf-8") "X-Content-Type-Options" "nosniff")
        "Content-Type" ≠ ["application/json; charset=utf-8"] := by
    rw [Header.Values_Set_ne _ _ _ _ (by decide), Header.Values_Set_ne _ _ _ _ (by decide),
      Header.Values_Set_ne _ _ _ _ (by decide), Header.Values_Set_same]
    exact ⟨h.1.1, by decide⟩
  cases hw : w.wroteHeader with
  | true =>
    refine ⟨?_, ?_⟩
    · simpa [ResponseWriter.Error, ResponseWriter.Write, ResponseWriter.WriteHeader, hw]
        using hh
    · simpa [ResponseWriter.Error, ResponseWriter.Write, ResponseWriter.WriteHeader, hw]
        using h.2
  | false =>
    refine ⟨?_, ?_⟩
    · simpa [ResponseWriter.Error, ResponseWriter.Write, ResponseWriter.WriteHeader, hw]
        using hh
    · simpa [ResponseWriter.Error, ResponseWriter.Write, ResponseWriter.WriteHeader, hw]
        using hh

theorem State.lacksJsonHeaders_ErrorIf {σ α : Type} (s : State σ α) (e : Option String)
    (h : s.rw.lacksJsonHeaders) : (s.ErrorIf e).rw.lacksJsonHeaders := by
  cases e with
  | none => exact h
  | some m => exact ResponseWriter.lacksJsonHeaders_Error s.rw m 500 h

theorem State.lacksJsonHeaders_Location {σ α : Type} (s : State σ α) (v : String)
    (h : s.rw.lacksJsonHeaders) : (s.HeaderAdd "Location" v).rw.lacksJsonHeaders := by
  have hset : ∀ k, k ≠ "Location" →
      Header.Values (Header.Add s.rw.header "Location" v) k = Header.Values s.rw.header k := by
    intro k hk
    have hb : (k == "Location") = false := by simpa using hk
    simp only [Header.Add, Header.Values, List.lookup, hb, lookup_filter_ne "Location" k hk]
  refine ⟨?_, h.2⟩
  simp only [State.HeaderAdd]
  rw [hset _ (by decide), hset _ (by decide)]
  exact h.1

theorem ResponseWriter.lacksJsonHeaders_finish {α : Type} (w : ResponseWriter α)
    (h : w.lacksJsonHeaders) :
    w.finish.sent.Values "Access-Control-Allow-Origin" = [] ∧
      w.finish.sent.Values "Content-Type" ≠ ["application/json; charset=utf-8"] := by
  cases hw : w.wroteHeader with
  | true => simpa [ResponseWriter.finish, ResponseWriter.WriteHeader, hw] using h.2
  | false => simpa [ResponseWriter.finish, ResponseWriter.WriteHeader, hw] using h.1

theorem CreateHandler_headers {σ α : Type} (name loc : String) (C : Collection σ α)
    (env : Env) (r : Request α) (ctx : Context α) (db : σ) :
    (CreateHandler name loc C env r (State.start ctx db)).rw.finish.sent.Values
        "Access-Control-Allow-Origin" = [] ∧
    (CreateHandler name loc C env r (State.start ctx db)).rw.finish.sent.Values
        "Content-Type" ≠ ["application/json; charset=utf-8"] := by
  apply ResponseWriter.lacksJsonHeaders_finish
  simp only [CreateHandler]
  apply State.lacksJsonHeaders_Location
  apply State.lacksJsonHeaders_ErrorIf
  simp only [State.ContextSet_rw]
  apply State.lacksJsonHeaders_ErrorIf
  simp only [State.call_rw, State.setDb_rw]
  apply State.lacksJsonHeaders_ErrorIf
  have hnew : (ResponseWriter.new : ResponseWriter α).lacksJsonHeaders :=
    ⟨⟨rfl, by simp [ResponseWriter.new, Header.Values]⟩,
      ⟨rfl, by simp [ResponseWriter.new, Header.Values]⟩⟩
  exact hnew

/-- C15 (as stated, fails): the response of a Create that succeeds carries neither
Content-Type nor Access-Control-Allow-Origin, only Location. -/
theorem C15_create_headers_counterexample :
    (ResourceCreate .Goal (docStore Unit) sampleEnv (sampleRequest "")
        (State.start [] [])).rw.statusWritten = none ∧
    (ResourceCreate .Goal (docStore Unit) sampleEnv (sampleRequest "")
        (State.start [] [])).rw.finish.sent
      = [("Location", ["http://fhir:3001/Goal/abababababababababababab"])] ∧
    (ResourceCreate .Goal (docStore Unit) sampleEnv (sampleRequest "")
        (State.start [] [])).rw.finish.sent.Values "Content-Type" = [] ∧
    (ResourceCreate .Goal (docStore Unit) sampleEnv (sampleRequest "")
        (State.start [] [])).rw.finish.sent.Values "Access-Control-Allow-Origin" = [] := by
  decide

/-- C15 (amended): for every resource, every Index and Show response that goes out with
status 200 carries the headers Content-Type: application/json; charset=utf-8 and
Access-Control-Allow-Origin: *; no Create response carries either of them. -/
theorem C15_json_headers {σ α : Type} (res : Resource) (C : Collection σ α) (env : Env)
    (r : Request α) (ctx : Context α) (db : σ) :
    ((IndexHandler res C env r (State.start ctx db)).rw.statusWritten = some 200 →
      (IndexHandler res C env r (State.start ctx db)).rw.carriesJsonHeaders) ∧
    ((ShowHandler res C r (State.start ctx db)).rw.statusWritten = some 200 →
      (ShowHandler res C r (State.start ctx db)).rw.carriesJsonHeaders) ∧
    (ResourceCreate res C env r (State.start ctx db)).rw.finish.sent.Values
        "Access-Control-Allow-Origin" = [] ∧
    (ResourceCreate res C env r (State.start ctx db)).rw.finish.sent.Values
        "Content-Type" ≠ ["application/json; charset=utf-8"] :=
  ⟨IndexHandler_headers res C env r ctx db, ShowHandler_headers res C r ctx db,
    (CreateHandler_headers res.name res.loc C env r ctx db).1,
    (CreateHandler_headers res.name res.loc C env r ctx db).2⟩

/-- Witness of C15: the Goal index filtered by patient and a Show of Encounter, both
answered with status 200. -/
theorem C15_json_headers_witness :
    (IndexHandler .Goal (docStore Unit) sampleEnv
        (formRequest [("patient:Patient", "123", [])])
        (State.start [] sampleGoals)).rw.carriesJsonHeaders ∧
    (ShowHandler .Encounter (docStore Unit) (sampleRequest "0123456789abcdef00000002")
        (State.start [] sampleGoals)).rw.carriesJsonHeaders :=
  ⟨(C15_json_headers .Goal (docStore Unit) sampleEnv
      (formRequest [("patient:Patient", "123", [])]) [] sampleGoals).1 (by decide),
    (C15_json_headers .Encounter (docStore Unit) sampleEnv
      (sampleRequest "0123456789abcdef00000002") [] sampleGoals).2.1 (by decide)⟩

/-! ## The ids in the store -/

theorem UpdateHandler_db {σ α : Type} (name : String) (C : Collection σ α)
    (r : Request α) (s : State σ α) :
    (UpdateHandler name C r s).db =
      (C.Update s.db (.byId (routeId r).Hex) { r.Body.1 with Id := (routeId r).Hex }).1 := by
  simp [UpdateHandler]

theorem DeleteHandler_db {σ α : Type} (name : String) (C : Collection σ α)
    (r : Request α) (s : State σ α) :
    (DeleteHandler name C r s).db = (C.Remove s.db (.byId (routeId r).Hex)).1 := by
  simp only [DeleteHandler, State.checkId_db]
  cases (C.Remove s.db (.byId (routeId r).Hex)).2 <;> simp

theorem mem_replaceFirst {α : Type} (sel : Selector) (d x : Record α) :
    ∀ docs : List (Record α), x ∈ replaceFirst sel d docs → x = d ∨ x ∈ docs
  | [], h => by simp [replaceFirst] at h
  | y :: ys, h => by
    unfold replaceFirst at h
    by_cases hm : sel.matches y = true
    · rw [if_pos hm] at h
      simp only [List.mem_cons] at h
      rcases h with h | h
      · exact Or.inl h
      · exact Or.inr (by simp [h])
    · rw [if_neg hm] at h
      simp only [List.mem_cons] at h
      rcases h with h | h
      · exact Or.inr (by simp [h])
      · rcases mem_replaceFirst sel d x ys h with h2 | h2
        · exact Or.inl h2
        · exact Or.inr (by simp [h2])

theorem routeId_Hex_isLower {α : Type} (r : Request α)
    (hv : IsObjectIdHex (r.Var "id") = true) : IsLowerHex24 (routeId r).Hex := by
  obtain ⟨d, hd, h12, _⟩ := ObjectIdHex_isSome hv
  have hr : routeId r = d := by simp [routeId, hv, hd]
  rw [hr]
  exact (Hex_valid h12).2.2

theorem not_IsLowerHex24_empty : ¬ IsLowerHex24 "" := by
  intro h
  have := h.1
  simp at this

/-- In the map model the store stays unchanged by an Update or Remove with the id of an
invalid route id, the empty string, when every stored id has 24 digits. -/
theorem no_match_for_invalid {α : Type} (r : Request α) (docs : List (Record α))
    (hinv : ∀ d ∈ docs, IsLowerHex24 d.Id) (hbad : IsObjectIdHex (r.Var "id") = false) :
    docs.any (Selector.byId (routeId r).Hex).matches = false := by
  rw [routeId_Hex_invalid r hbad, List.any_eq_false]
  intro x hx hm
  have hid : x.Id = "" := by simpa [Selector.matches] using hm
  exact not_IsLowerHex24_empty (hid ▸ hinv x hx)

/-- C16: in the map model of a collection, when every document has an id of 24 lower-case
hexadecimal digits, the same holds after the Create, the Update and the Delete handler of
every resource, for any route id and any body, decodable or not. -/
theorem C16_store_ids_stay_lower_hex {α : Type} (res : Resource) (env : Env) (r : Request α)
    (s : State (List (Record α)) α)
    (hinv : ∀ d ∈ s.db, IsLowerHex24 d.Id) (h12 : env.NewObjectId.length = 12) :
    (∀ d ∈ (ResourceCreate res (docStore α) env r s).db, IsLowerHex24 d.Id) ∧
    (∀ d ∈ (ResourceUpdate res (docStore α) r s).db, IsLowerHex24 d.Id) ∧
    (∀ d ∈ (ResourceDelete res (docStore α) r s).db, IsLowerHex24 d.Id) := by
  refine ⟨?_, ?_, ?_⟩
  · intro d hd
    rw [ResourceCreate, CreateHandler_db] at hd
    simp only [docStore] at hd
    split_ifs at hd with hdup
    · exact hinv d hd
    · rcases List.mem_append.mp hd with h | h
      · exact hinv d h
      · have hdeq : d = { r.Body.1 with Id := env.NewObjectId.Hex } := by simpa using h
        rw [hdeq]
        exact (Hex_valid h12).2.2
  · intro d hd
    rw [ResourceUpdate, UpdateHandler_db] at hd
    simp only [docStore] at hd
    split_ifs at hd with hany
    · rcases mem_replaceFirst _ _ _ _ hd with h | h
      · rw [h]
        cases hv : IsObjectIdHex (r.Var "id") with
        | true => exact routeId_Hex_isLower r hv
        | false =>
          rw [no_match_for_invalid r s.db hinv hv] at hany
          exact absurd hany (by simp)
      · exact hinv d h
    · exact hinv d hd
  · intro d hd
    rw [ResourceDelete, DeleteHandler_db] at hd
    simp only [docStore] at hd
    split_ifs at hd with hany
    · exact hinv d (List.mem_of_mem_eraseP hd)
    · exact hinv d hd

/-- Witness of C16: a body that does not decode and an invalid route id, on three goals. -/
theorem C16_store_ids_stay_lower_hex_witness :
    (∀ d ∈ (ResourceCreate .Goal (docStore Unit) sampleEnv (badBodyRequest "xyz")
        (State.start [] sampleGoals)).db, IsLowerHex24 d.Id) ∧
    (∀ d ∈ (ResourceUpdate .Goal (docStore Unit) (badBodyRequest "xyz")
        (State.start [] sampleGoals)).db, IsLowerHex24 d.Id) ∧
    (∀ d ∈ (ResourceDelete .Goal (docStore Unit) (badBodyRequest "xyz")
        (State.start [] sampleGoals)).db, IsLowerHex24 d.Id) :=
  C16_store_ids_stay_lower_hex .Goal sampleEnv (badBodyRequest "xyz")
    (State.start [] sampleGoals)
    (by
      intro d hd
      have hcases : d = sampleRecord "0123456789abcdef00000001" (some "123") ∨
          d = sampleRecord "0123456789abcdef00000002" (some "456") ∨
          d = sampleRecord "0123456789abcdef00000003" (some "123") := by
        simpa [State.start, sampleGoals, sampleRecord] using hd
      rcases hcases with h | h | h <;> subst h <;> exact ⟨by decide, by decide⟩)
    (by decide)

/-! ## The order of the query parameters -/

theorem goalIndexLoop_docStore {α : Type} (docs : List (Record α)) :
    ∀ (form : List (String × String × List String))
      (acc : List (Record α) × State (List (Record α)) α), acc.2.db = docs →
      (form.foldl (goalIndexStep (docStore α)) acc).1 =
          (patientValues form).foldl
            (fun _ v => docs.filter (fun g => g.Patient == some v)) acc.1 ∧
        (form.foldl (goalIndexStep (docStore α)) acc).2.rw = acc.2.rw
  | [], acc, _ => ⟨rfl, rfl⟩
  | kv :: form, acc, hdb => by
    rw [List.foldl_cons, goalIndexStep_eq]
    by_cases hk : isPatientKey kv.1 = true
    · simp only [hk, if_true]
      have hfound : (docStore α).All acc.2.db (.byPatient kv.2.1) none
          = (docs.filter (fun g => g.Patient == some kv.2.1), none) := by
        rw [hdb]
        rfl
      rw [hfound]
      obtain ⟨h1, h2⟩ := goalIndexLoop_docStore docs form
        (docs.filter (fun g => g.Patient == some kv.2.1),
          (acc.2.call (.All (.byPatient kv.2.1) none)).ErrorIf none) (by simpa using hdb)
      refine ⟨?_, ?_⟩
      · rw [h1]
        simp [patientValues, List.filter_cons, hk]
      · rw [h2]
        rfl
    · simp only [hk, Bool.false_eq_true, if_false]
      obtain ⟨h1, h2⟩ := goalIndexLoop_docStore docs form acc hdb
      refine ⟨?_, h2⟩
      rw [h1]
      simp [patientValues, List.filter_cons, hk]

theorem foldl_last_of_const {β : Type} (F : String → β) (c : String) :
    ∀ (vals : List String) (init : β), (∀ v ∈ vals, v = c) → vals ≠ [] →
      vals.foldl (fun _ v => F v) init = F c
  | [], _, _, hne => absurd rfl hne
  | [a], init, hall, _ => by
    simp [hall a (by simp)]
  | a :: b :: rest, init, hall, _ => by
    rw [List.foldl_cons]
    exact foldl_last_of_const F c (b :: rest) _ (fun v hv => hall v (by simp [hv])) (by simp)

theorem entryIndexTail_body_of_new {σ α : Type} (name : String) (env : Env)
    (result : List (Record α)) (s : State σ α) (hrw : s.rw = ResponseWriter.new) :
    (entryIndexTail name env result s).rw.body =
      [.json (.entryBundle
        { BundleType := "Bundle", Title := name ++ " Index", Id := env.NewObjectId.Hex,
          Updated := env.Now, TotalResults := result.length,
          Entry := entryList name result })] := by
  simp [entryIndexTail, State.Encode, State.HeaderSet, State.ContextSet, hrw,
    ResponseWriter.Write, ResponseWriter.WriteHeader, ResponseWriter.new]

theorem GoalIndexHandler_docStore_body {α : Type} (docs : List (Record α)) (env : Env)
    (ctx : Context α) (r : Request α) (hform : r.Form ≠ []) :
    (GoalIndexHandler (docStore α) env r (State.start ctx docs)).rw.body =
      [.json (.entryBundle
        { BundleType := "Bundle", Title := "Goal" ++ " Index", Id := env.NewObjectId.Hex,
          Updated := env.Now,
          TotalResults := ((patientValues r.Form).foldl
            (fun _ v => docs.filter (fun g => g.Patient == some v)) []).length,
          Entry := entryList "Goal" ((patientValues r.Form).foldl
            (fun _ v => docs.filter (fun g => g.Patient == some v)) []) })] := by
  have hl : ¬ r.Form.length = 0 := by simpa using hform
  obtain ⟨h1, h2⟩ := goalIndexLoop_docStore docs r.Form ([], State.start ctx docs) rfl
  simp only [GoalIndexHandler, hl, if_false]
  rw [entryIndexTail_body_of_new _ _ _ _ (by rw [h2]; rfl), h1]

theorem GoalIndexHandler_congr {σ α : Type} (C : Collection σ α) (env : Env)
    (r1 r2 : Request α) (s : State σ α) (h : r1.Form = r2.Form) :
    GoalIndexHandler C env r1 s = GoalIndexHandler C env r2 s := by
  simp only [GoalIndexHandler, h]

theorem mem_patientValues {form : List (String × String × List String)} {v : String}
    (h : v ∈ patientValues form) : ∃ kv ∈ form, IsPatientParam kv.1 ∧ kv.2.1 = v := by
  simp only [patientValues, List.mem_map, List.mem_filter] at h
  obtain ⟨kv, ⟨hkv, hkey⟩, hval⟩ := h
  exact ⟨kv, hkv, (isPatientKey_iff kv.1).mp hkey, hval⟩

/-- C17 (as stated, fails): with the parameters patient:Patient=123 and
patient:Subject=456 on three stored goals, the loop visiting patient:Subject last gives a
bundle with totalResults 1 (the goal of patient 456), and visiting patient:Patient last
gives a bundle with totalResults 2 (the goals of patient 123). -/
theorem C17_iteration_order_counterexample :
    List.Perm [("patient:Patient", "123", ([] : List String)), ("patient:Subject", "456", [])]
      [("patient:Subject", "456", []), ("patient:Patient", "123", [])] ∧
    ((GoalIndexHandler (docStore Unit) sampleEnv
        (formRequest [("patient:Patient", "123", []), ("patient:Subject", "456", [])])
        (State.start [] sampleGoals)).rw.body.map (fun c => c.value.totalResults))
      = [some 1] ∧
    ((GoalIndexHandler (docStore Unit) sampleEnv
        (formRequest [("patient:Subject", "456", []), ("patient:Patient", "123", [])])
        (State.start [] sampleGoals)).rw.body.map (fun c => c.value.totalResults))
      = [some 2] ∧
    (GoalIndexHandler (docStore Unit) sampleEnv
        (formRequest [("patient:Patient", "123", []), ("patient:Subject", "456", [])])
        (State.start [] sampleGoals)).rw.body
      ≠ (GoalIndexHandler (docStore Unit) sampleEnv
        (formRequest [("patient:Subject", "456", []), ("patient:Patient", "123", [])])
        (State.start [] sampleGoals)).rw.body :=
  ⟨List.Perm.swap _ _ _, by decide, by decide, by decide⟩

/-- C17 (amended): in the map model of a collection, two iteration orders of the same
query parameters give the same response body, hence the same bundle entries and the same
totalResults, when all parameters of the form patient:<modifier> carry the same value, in
particular when there is at most one such parameter. -/
theorem C17_goal_index_order {α : Type} (docs : List (Record α)) (env : Env)
    (ctx : Context α) (r1 r2 : Request α)
    (hperm : r1.Form.Perm r2.Form)
    (hsame : ∀ kv1 ∈ r1.Form, ∀ kv2 ∈ r1.Form, IsPatientParam kv1.1 → IsPatientParam kv2.1 →
      kv1.2.1 = kv2.2.1) :
    (GoalIndexHandler (docStore α) env r1 (State.start ctx docs)).rw.body =
      (GoalIndexHandler (docStore α) env r2 (State.start ctx docs)).rw.body := by
  by_cases hform : r1.Form = []
  · have hform2 : r2.Form = [] := by
      rw [hform] at hperm
      exact List.Perm.eq_nil hperm.symm
    rw [GoalIndexHandler_congr (docStore α) env r1 r2 _ (hform.trans hform2.symm)]
  · have hform2 : r2.Form ≠ [] := by
      intro h
      rw [h] at hperm
      exact hform (List.Perm.eq_nil hperm)
    have hvals : (patientValues r1.Form).Perm (patientValues r2.Form) :=
      (hperm.filter _).map _
    have hfold : (patientValues r1.Form).foldl
          (fun _ v => docs.filter (fun g => g.Patient == some v)) [] =
        (patientValues r2.Form).foldl
          (fun _ v => docs.filter (fun g => g.Patient == some v)) [] := by
      cases hv1 : patientValues r1.Form with
      | nil =>
        rw [hv1] at hvals
        rw [List.Perm.eq_nil hvals.symm]
      | cons c rest =>
        have hall1 : ∀ v ∈ patientValues r1.Form, v = c := by
          intro v hv
          obtain ⟨kv, hkv, hp, hval⟩ := mem_patientValues hv
          obtain ⟨kc, hkc, hpc, hvalc⟩ := mem_patientValues
            (show c ∈ patientValues r1.Form by rw [hv1]; simp)
          rw [← hval, ← hvalc]
          exact hsame kv hkv kc hkc hp hpc
        have hall2 : ∀ v ∈ patientValues r2.Form, v = c :=
          fun v hv => hall1 v (hvals.mem_iff.mpr hv)
        have hne2 : patientValues r2.Form ≠ [] := by
          intro h
          rw [h, hv1] at hvals
          exact absurd (List.Perm.eq_nil hvals) (by simp)
        rw [← hv1,
          foldl_last_of_const (fun v => docs.filter (fun g => g.Patient == some v)) c _ []
            hall1 (by rw [hv1]; simp),
          foldl_last_of_const (fun v => docs.filter (fun g => g.Patient == some v)) c _ []
            hall2 hne2]
    rw [GoalIndexHandler_docStore_body docs env ctx r1 hform,
      GoalIndexHandler_docStore_body docs env ctx r2 hform2, hfold]

/-- Witness of C17: one patient parameter among two parameters, in both orders. -/
theorem C17_goal_index_order_witness :
    (GoalIndexHandler (docStore Unit) sampleEnv
        (formRequest [("patient:Patient", "123", []), ("foo", "bar", [])])
        (State.start [] sampleGoals)).rw.body =
      (GoalIndexHandler (docStore Unit) sampleEnv
        (formRequest [("foo", "bar", []), ("patient:Patient", "123", [])])
        (State.start [] sampleGoals)).rw.body :=
  C17_goal_index_order sampleGoals sampleEnv []
    (formRequest [("patient:Patient", "123", []), ("foo", "bar", [])])
    (formRequest [("foo", "bar", []), ("patient:Patient", "123", [])])
    (List.Perm.swap _ _ _)
    (fun kv1 h1 kv2 h2 p1 p2 => by
      have k1 := (isPatientKey_iff kv1.1).mpr p1
      have k2 := (isPatientKey_iff kv2.1).mpr p2
      have c1 : kv1 = ("patient:Patient", "123", []) ∨ kv1 = ("foo", "bar", []) := by
        simpa [formRequest] using h1
      have c2 : kv2 = ("patient:Patient", "123", []) ∨ kv2 = ("foo", "bar", []) := by
        simpa [formRequest] using h2
      rcases c1 with e1 | e1 <;> rcases c2 with e2 | e2 <;> subst e1 <;> subst e2
      · rfl
      · exact absurd k2 (by decide)
      · exact absurd k1 (by decide)
      · rfl)

end Fhir
